import Mathlib

/-!
Verification of the `pik_comfort` API client (`custom_components/pik_comfort`).

This file gives a shallow embedding of the client's data model and of the
operations the specification talks about, translated from
`custom_components/pik_comfort/api.py`, `binary_sensor.py` and `_base.py`:

* Python `float` fields are modelled as `ℚ`; `int` fields as `Int`;
  `str` as `String`; `Optional[X]` (a JSON `null`) as `Option X`.
* `datetime` / `date` values obtained through `datetime.fromisoformat` are
  modelled as abstract integer time codes: the payload carries the already
  parsed value (the ISO parse is injective and none of the verified
  properties depend on the textual format).  Where the source guards a
  parse with a falsiness check (`if json_data.get(k)`), the payload field
  is an `Option Int` and `none` covers both an absent/`null` key and the
  empty string, all of which are falsy.
* JSON objects are modelled as one payload structure per record type whose
  fields are exactly the keys the source reads.
* Raised Python exceptions are modelled with `Except PyErr`; a function
  that cannot raise on typed payloads is still given the `Except` type when
  the source groups it with fallible ones.
* The `api` back reference stored on every record is a session-constant
  handle (the same object on all records of a session) and carries no
  record data, so it is omitted from the record structures; where a method
  reads `self.api.<x>` the value `<x>` is passed explicitly.
-/

/-- Python exception taxonomy actually raised by the modelled code paths. -/
inductive PyErr where
  | assertionError (msg : String)
  | attributeError
  | typeError
  | valueError (msg : String)
  | pikComfortException (msg : String)
  deriving DecidableEq, Repr

/-- Python `assert cond, msg`. -/
def pyAssert (p : Prop) [Decidable p] (msg : String) : Except PyErr Unit :=
  if p then .ok () else .error (.assertionError msg)

/-- `x or None` on an optional string: `None` and `""` are falsy. -/
def pyStrOrNone (x : Option String) : Option String :=
  match x with
  | none => none
  | some s => if s = "" then none else some s

/-! ## Enumerations (api.py lines 899-905, 1316-1329, 1547-1555) -/

/-- `TicketStatus(IntEnum)`: UNKNOWN=0, RECEIVED=200, PROCESSING=201,
COMPLETED=202, DENIED=203.  It does **not** define `_missing_`. -/
inductive TicketStatus where
  | UNKNOWN | RECEIVED | PROCESSING | COMPLETED | DENIED
  deriving DecidableEq, Repr

def TicketStatus.value : TicketStatus → Int
  | .UNKNOWN => 0
  | .RECEIVED => 200
  | .PROCESSING => 201
  | .COMPLETED => 202
  | .DENIED => 203

def TicketStatus.members : List TicketStatus :=
  [.UNKNOWN, .RECEIVED, .PROCESSING, .COMPLETED, .DENIED]

/-- `TicketStatus(n)`: IntEnum value lookup; without `_missing_` a value
that is not a member raises `ValueError`. -/
def ticketStatusOf (n : Int) : Except PyErr TicketStatus :=
  match TicketStatus.members.find? (fun s => s.value = n) with
  | some s => .ok s
  | none => .error (.valueError "is not a valid TicketStatus")

/-- `PaymentStatus(IntEnum)`: UNKNOWN=0, PROCESSING=1, ACCEPTED=2,
DECLINED=3, with `_missing_` returning UNKNOWN. -/
inductive PaymentStatus where
  | UNKNOWN | PROCESSING | ACCEPTED | DECLINED
  deriving DecidableEq, Repr

def PaymentStatus.value : PaymentStatus → Int
  | .UNKNOWN => 0
  | .PROCESSING => 1
  | .ACCEPTED => 2
  | .DECLINED => 3

def PaymentStatus.members : List PaymentStatus :=
  [.UNKNOWN, .PROCESSING, .ACCEPTED, .DECLINED]

/-- `PaymentStatus(n)`: the `_missing_` hook makes this total, mapping any
non-member to UNKNOWN. -/
def paymentStatusOf (n : Int) : PaymentStatus :=
  match PaymentStatus.members.find? (fun s => s.value = n) with
  | some s => s
  | none => PaymentStatus.UNKNOWN

/-- `MeterResourceType(IntEnum)`: members 0..8, with `_missing_` returning
UNKNOWN. -/
inductive MeterResourceType where
  | UNKNOWN | COLD_WATER | HOT_WATER | ELECTRICITY | GAS
  | HEATING | GAS_TANKS | SOLID_FUEL | WASTE_WATER
  deriving DecidableEq, Repr

def MeterResourceType.value : MeterResourceType → Int
  | .UNKNOWN => 0
  | .COLD_WATER => 1
  | .HOT_WATER => 2
  | .ELECTRICITY => 3
  | .GAS => 4
  | .HEATING => 5
  | .GAS_TANKS => 6
  | .SOLID_FUEL => 7
  | .WASTE_WATER => 8

def MeterResourceType.members : List MeterResourceType :=
  [.UNKNOWN, .COLD_WATER, .HOT_WATER, .ELECTRICITY, .GAS,
   .HEATING, .GAS_TANKS, .SOLID_FUEL, .WASTE_WATER]

/-- `MeterResourceType(n)`: total thanks to `_missing_`. -/
def meterResourceTypeOf (n : Int) : MeterResourceType :=
  match MeterResourceType.members.find? (fun s => s.value = n) with
  | some s => s
  | none => MeterResourceType.UNKNOWN

/-! ## List helpers shared by the reconciliation methods

Python sets of identity keys are modelled as duplicate-free lists used only
through membership, insertion and removal; `list.remove(x)` removes the
first element equal (by `==`, i.e. field-wise for `attr.s` records) to `x`.
-/

/-- `set.add k` (no-op when the key is already present). -/
def setAdd {K : Type} [DecidableEq K] (s : List K) (k : K) : List K :=
  if k ∈ s then s else s ++ [k]

/-- `set.remove k` / `list.remove x`: drop the first occurrence. -/
def removeFirst {K : Type} [DecidableEq K] : List K → K → List K
  | [], _ => []
  | x :: xs, k => if x = k then xs else x :: removeFirst xs k

/-- First index (scan order) whose element satisfies `p`, with the element. -/
def findWithIdx {M : Type} (p : M → Bool) : List M → Option (Nat × M)
  | [] => none
  | m :: ms =>
    if p m then some (0, m)
    else (findWithIdx p ms).map (fun r => (r.1 + 1, r.2))

/-- Second pass of every `update_list_with_models` (api.py lines 471-475 and
the analogous loops at 1099-1103, 1197-1201, 1540-1544): iterate over
`tuple(reversed(target_list))`; an object whose key was not seen in the
payload is removed from the list, otherwise its key is discharged from the
cleanup set (so a later - i.e. earlier-positioned - duplicate of the same
key gets removed). -/
def cleanupPass {M K : Type} [DecidableEq M] [DecidableEq K] (key : M → K) :
    List M → List M → List K → List M
  | [], cur, _ => cur
  | m :: rest, cur, cl =>
    if key m ∈ cl then
      cleanupPass key rest cur (removeFirst cl (key m))
    else
      cleanupPass key rest (removeFirst cur m) cl

/-- First pass of the generic `_BaseIdentifiableModel.update_list_with_models`
(api.py lines 451-469): for each payload object, record its `(_uid, _type)`
key, then update the first existing record with that identity in place, or
construct-and-append on a miss. -/
def updateLoop {M J K : Type} [DecidableEq K]
    (jkey : J → K) (mkey : M → K) (create : J → M)
    (update : M → J → Except PyErr M) :
    List M → List J → List K → Except PyErr (List M × List K)
  | target, [], cleanup => .ok (target, cleanup)
  | target, j :: rest, cleanup =>
    let k := jkey j
    let cleanup1 := setAdd cleanup k
    match findWithIdx (fun m => mkey m = k) target with
    | none => updateLoop jkey mkey create update (target ++ [create j]) rest cleanup1
    | some (i, m) => do
        let m1 ← update m j
        updateLoop jkey mkey create update (target.set i m1) rest cleanup1

/-- `_BaseIdentifiableModel.update_list_with_models` (api.py lines 444-475),
parameterised over the record type's identity accessors, constructor and
updater exactly as the classmethod is parameterised over `cls`. -/
def updateListWithModels {M J K : Type} [DecidableEq M] [DecidableEq K]
    (jkey : J → K) (mkey : M → K) (create : J → M)
    (update : M → J → Except PyErr M)
    (target : List M) (payload : List J) : Except PyErr (List M) := do
  let (t1, cl) ← updateLoop jkey mkey create update target payload []
  .ok (cleanupPass mkey t1.reverse t1 cl)

/-! ## PikComfortAddressFormat (api.py lines 872-896) -/

structure AddressFormatPayload where
  all : String
  street_only : String
  finishing_with_village : String
  starting_with_street : String
  finishing_with_street : String
  deriving DecidableEq, Repr

structure PikComfortAddressFormat where
  all : String
  street_only : String
  finishing_with_village : String
  starting_with_street : String
  finishing_with_street : String
  deriving DecidableEq, Repr

def PikComfortAddressFormat.create_from_json (j : AddressFormatPayload) :
    PikComfortAddressFormat :=
  { all := j.all
    street_only := j.street_only
    finishing_with_village := j.finishing_with_village
    finishing_with_street := j.finishing_with_street
    starting_with_street := j.starting_with_street }

def PikComfortAddressFormat.update_from_json (_a : PikComfortAddressFormat)
    (j : AddressFormatPayload) : Except PyErr PikComfortAddressFormat :=
  .ok { all := j.all
        street_only := j.street_only
        finishing_with_village := j.finishing_with_village
        finishing_with_street := j.finishing_with_street
        starting_with_street := j.starting_with_street }

/-! ## PikComfortPremise (api.py lines 776-825) -/

structure PremisePayload where
  _uid : String
  _type : String
  number : String
  address : String
  building : String
  type : Int
  common_space : ℚ
  living_space : ℚ
  nonliving_space : Option ℚ
  pay_space : Option ℚ
  user_premise_name : Option String
  address_formats : AddressFormatPayload
  deriving DecidableEq, Repr

structure PikComfortPremise where
  id : String
  type : String
  number : String
  address : String
  building : String
  type_id : Int
  common_space : ℚ
  living_space : ℚ
  nonliving_space : Option ℚ
  pay_space : Option ℚ
  user_premise_name : Option String
  address_formats : PikComfortAddressFormat
  deriving DecidableEq, Repr

def PikComfortPremise.create_from_json (j : PremisePayload) : PikComfortPremise :=
  { id := j._uid
    type := j._type
    number := j.number
    address := j.address
    building := j.building
    type_id := j.type
    common_space := j.common_space
    living_space := j.living_space
    nonliving_space := j.nonliving_space
    pay_space := j.pay_space
    user_premise_name := j.user_premise_name
    address_formats := PikComfortAddressFormat.create_from_json j.address_formats }

/-- `PikComfortPremise.update_from_json` (api.py lines 811-825).  Note:
unlike most records it performs **no** identity assertion and assigns
`self.id` / `self.type` from the payload. -/
def PikComfortPremise.update_from_json (p : PikComfortPremise)
    (j : PremisePayload) : Except PyErr PikComfortPremise := do
  let af ← p.address_formats.update_from_json j.address_formats
  .ok { id := j._uid
        type := j._type
        number := j.number
        address := j.address
        building := j.building
        type_id := j.type
        common_space := j.common_space
        living_space := j.living_space
        nonliving_space := j.nonliving_space
        pay_space := j.pay_space
        user_premise_name := j.user_premise_name
        address_formats := af }

/-! ## PikComfortBuilding (api.py lines 827-869) -/

structure BuildingPayload where
  _uid : String
  _type : String
  address : String
  type : Int
  geo_location : ℚ × ℚ
  common_space : Option ℚ
  nonliving_space : Option ℚ
  living_space : Option ℚ
  address_formats : AddressFormatPayload
  deriving DecidableEq, Repr

structure PikComfortBuilding where
  id : String
  type : String
  address : String
  type_id : Int
  geo_location : ℚ × ℚ
  common_space : Option ℚ
  nonliving_space : Option ℚ
  living_space : Option ℚ
  address_formats : PikComfortAddressFormat
  deriving DecidableEq, Repr

def PikComfortBuilding.create_from_json (j : BuildingPayload) : PikComfortBuilding :=
  { id := j._uid
    type := j._type
    address := j.address
    type_id := j.type
    geo_location := j.geo_location
    common_space := j.common_space
    nonliving_space := j.nonliving_space
    living_space := j.living_space
    address_formats := PikComfortAddressFormat.create_from_json j.address_formats }

/-- `PikComfortBuilding.update_from_json` (api.py lines 857-869): like the
premise it has no identity assertion and overwrites `id` / `type`. -/
def PikComfortBuilding.update_from_json (b : PikComfortBuilding)
    (j : BuildingPayload) : Except PyErr PikComfortBuilding := do
  let af ← b.address_formats.update_from_json j.address_formats
  .ok { id := j._uid
        type := j._type
        address := j.address
        type_id := j.type
        geo_location := j.geo_location
        common_space := j.common_space
        nonliving_space := j.nonliving_space
        living_space := j.living_space
        address_formats := af }

/-! ## PikComfortAttachmentImage (api.py lines 1033-1103) -/

structure AttachmentPayload where
  uid : String
  created : Int
  name : String
  size : Int
  content_type : String
  tags : List String
  linked_from : Option String
  file_link : String
  deriving DecidableEq, Repr

structure PikComfortAttachmentImage where
  id : String
  created : Int
  name : String
  size : Int
  content_type : String
  tags : List String
  linked_from : Option String
  file_link : String
  deriving DecidableEq, Repr

def PikComfortAttachmentImage.create_from_json (j : AttachmentPayload) :
    PikComfortAttachmentImage :=
  { id := j.uid
    created := j.created
    name := j.name
    size := j.size
    content_type := j.content_type
    tags := j.tags
    linked_from := j.linked_from
    file_link := j.file_link }

def PikComfortAttachmentImage.update_from_json (a : PikComfortAttachmentImage)
    (j : AttachmentPayload) : Except PyErr PikComfortAttachmentImage := do
  pyAssert (a.id = j.uid) "UID does not match"
  .ok { a with
        created := j.created
        name := j.name
        size := j.size
        content_type := j.content_type
        tags := j.tags
        linked_from := j.linked_from
        file_link := j.file_link }

/-- Attachment images have their own `update_list_with_models` keyed by the
`uid` alone (api.py lines 1075-1103); structurally identical to the generic
one. -/
def PikComfortAttachmentImage.update_list_with_models
    (target : List PikComfortAttachmentImage) (payload : List AttachmentPayload) :
    Except PyErr (List PikComfortAttachmentImage) :=
  updateListWithModels (fun j => j.uid) (fun a => a.id)
    PikComfortAttachmentImage.create_from_json
    PikComfortAttachmentImage.update_from_json target payload

/-! ## PikComfortComment (api.py lines 987-1030) -/

structure CommentPayload where
  _uid : String
  _type : String
  ticket : String
  text : String
  source_created : String
  source_updated : String
  attachments : List AttachmentPayload
  is_system : Bool
  notification_channel : String
  notification_status : String
  sender : String
  deriving DecidableEq, Repr

structure PikComfortComment where
  id : String
  type : String
  ticket : String
  text : String
  source_created : String
  source_updated : String
  attachments : List PikComfortAttachmentImage
  is_system : Bool
  notification_channel : String
  notification_status : String
  sender : String
  deriving DecidableEq, Repr

def PikComfortComment.create_from_json (j : CommentPayload) : PikComfortComment :=
  { id := j._uid
    type := j._type
    ticket := j.ticket
    text := j.text
    source_updated := j.source_updated
    attachments := j.attachments.map PikComfortAttachmentImage.create_from_json
    is_system := j.is_system
    notification_channel := j.notification_channel
    notification_status := j.notification_status
    sender := j.sender
    source_created := j.source_created }

/-- `PikComfortComment.update_from_json` (api.py lines 1020-1030): asserts
identity; updates scalars only (neither `attachments` nor `source_created`
are touched on update). -/
def PikComfortComment.update_from_json (c : PikComfortComment)
    (j : CommentPayload) : Except PyErr PikComfortComment := do
  pyAssert (c.id = j._uid) "UID does not match"
  pyAssert (c.type = j._type) "type does not match"
  .ok { c with
        ticket := j.ticket
        text := j.text
        source_updated := j.source_updated
        is_system := j.is_system
        notification_channel := j.notification_channel
        notification_status := j.notification_status
        sender := j.sender }

def PikComfortComment.update_list_with_models
    (target : List PikComfortComment) (payload : List CommentPayload) :
    Except PyErr (List PikComfortComment) :=
  updateListWithModels (fun j => (j._uid, j._type)) (fun c => (c.id, c.type))
    PikComfortComment.create_from_json
    PikComfortComment.update_from_json target payload

/-! ## PikComfortTicket (api.py lines 907-984) -/

structure TicketPayload where
  _uid : String
  _type : String
  number : String
  description : String
  classifier_id : String
  status : Int
  is_viewed : Bool
  last_status_changed : Int
  created : Int
  updated : Int
  is_commentable : Bool
  attachments : List AttachmentPayload
  comments : List CommentPayload
  deriving DecidableEq, Repr

structure PikComfortTicket where
  id : String
  type : String
  number : String
  description : String
  classifier_id : String
  status_id : Int
  is_viewed : Bool
  last_status_changed : Int
  created : Int
  updated : Int
  is_commentable : Bool
  attachments : List PikComfortAttachmentImage
  comments : List PikComfortComment
  is_liked : Option Bool := none
  deriving DecidableEq, Repr

/-- `PikComfortTicket.status` (api.py lines 922-924): `TicketStatus(self.status_id)`,
partial because `TicketStatus` has no `_missing_`. -/
def PikComfortTicket.status (t : PikComfortTicket) : Except PyErr TicketStatus :=
  ticketStatusOf t.status_id

def PikComfortTicket.create_from_json (j : TicketPayload) : PikComfortTicket :=
  { id := j._uid
    type := j._type
    number := j.number
    description := j.description
    classifier_id := j.classifier_id
    status_id := j.status
    is_viewed := j.is_viewed
    last_status_changed := j.last_status_changed
    created := j.created
    updated := j.updated
    is_commentable := j.is_commentable
    attachments := j.attachments.map PikComfortAttachmentImage.create_from_json
    comments := j.comments.map PikComfortComment.create_from_json }

def PikComfortTicket.update_from_json (t : PikComfortTicket)
    (j : TicketPayload) : Except PyErr PikComfortTicket := do
  pyAssert (t.id = j._uid) "UID does not match"
  pyAssert (t.type = j._type) "type does not match"
  let cms ← PikComfortComment.update_list_with_models t.comments j.comments
  let ats ← PikComfortAttachmentImage.update_list_with_models t.attachments j.attachments
  .ok { t with
        comments := cms
        attachments := ats
        number := j.number
        description := j.description
        classifier_id := j.classifier_id
        status_id := j.status
        is_viewed := j.is_viewed
        last_status_changed := j.last_status_changed
        created := j.created
        updated := j.updated
        is_commentable := j.is_commentable }

def PikComfortTicket.update_list_with_models
    (target : List PikComfortTicket) (payload : List TicketPayload) :
    Except PyErr (List PikComfortTicket) :=
  updateListWithModels (fun j => (j._uid, j._type)) (fun t => (t.id, t.type))
    PikComfortTicket.create_from_json
    PikComfortTicket.update_from_json target payload

/-! ## TurnoverBalanceRecord (api.py lines 1272-1313) -/

structure TurnoverPayload where
  _uid : String
  _type : String
  service_name : String
  service_code : String
  incoming_balance : ℚ
  charge : ℚ
  boosted_charge : ℚ
  charge_correct : ℚ
  subsidy : ℚ
  payment : ℚ
  total : ℚ
  deriving DecidableEq, Repr

structure TurnoverBalanceRecord where
  id : String
  type : String
  service_name : String
  service_code : String
  initial : ℚ
  charge : ℚ
  boosted_charge : ℚ
  corrections : ℚ
  subsidy : ℚ
  payment : ℚ
  total : ℚ
  deriving DecidableEq, Repr

def TurnoverBalanceRecord.create_from_json (j : TurnoverPayload) :
    TurnoverBalanceRecord :=
  { id := j._uid
    type := j._type
    service_name := j.service_name
    service_code := j.service_code
    initial := j.incoming_balance
    charge := j.charge
    boosted_charge := j.boosted_charge
    corrections := j.charge_correct
    subsidy := j.subsidy
    payment := j.payment
    total := j.total }

def TurnoverBalanceRecord.update_from_json (t : TurnoverBalanceRecord)
    (j : TurnoverPayload) : Except PyErr TurnoverBalanceRecord := do
  pyAssert (t.id = j._uid) "UID does not match"
  pyAssert (t.type = j._type) "type does not match"
  .ok { t with
        service_name := j.service_name
        service_code := j.service_code
        initial := j.incoming_balance
        charge := j.charge
        boosted_charge := j.boosted_charge
        corrections := j.charge_correct
        subsidy := j.subsidy
        payment := j.payment
        total := j.total }

def TurnoverBalanceRecord.update_list_with_models
    (target : List TurnoverBalanceRecord) (payload : List TurnoverPayload) :
    Except PyErr (List TurnoverBalanceRecord) :=
  updateListWithModels (fun j => (j._uid, j._type)) (fun t => (t.id, t.type))
    TurnoverBalanceRecord.create_from_json
    TurnoverBalanceRecord.update_from_json target payload

/-! ## PikComfortReceiptContent (api.py lines 1204-1269) -/

structure ReceiptContentPayload where
  _uid : String
  _type : String
  import_id : String
  title : String
  display_name : Option String
  address : String
  request_phone : String
  dispatcher_phone : String
  charge : ℚ
  charge_correct : ℚ
  payment : ℚ
  incoming_balance : ℚ
  subsidy : ℚ
  penalty : ℚ
  total : ℚ
  turnover_balance_records : List TurnoverPayload
  deriving DecidableEq, Repr

structure PikComfortReceiptContent where
  id : String
  type : String
  import_id : String
  title : String
  display_name : Option String
  address : String
  request_phone : String
  dispatcher_phone : String
  charge : ℚ
  corrections : ℚ
  payment : ℚ
  initial : ℚ
  subsidy : ℚ
  penalty : ℚ
  total : ℚ
  turnover_balance_records : List TurnoverBalanceRecord
  deriving DecidableEq, Repr

def PikComfortReceiptContent.create_from_json (j : ReceiptContentPayload) :
    PikComfortReceiptContent :=
  { id := j._uid
    type := j._type
    import_id := j.import_id
    title := j.title
    display_name := j.display_name
    address := j.address
    request_phone := j.request_phone
    dispatcher_phone := j.dispatcher_phone
    charge := j.charge
    corrections := j.charge_correct
    payment := j.payment
    initial := j.incoming_balance
    subsidy := j.subsidy
    penalty := j.penalty
    total := j.total
    turnover_balance_records :=
      j.turnover_balance_records.map TurnoverBalanceRecord.create_from_json }

def PikComfortReceiptContent.update_from_json (c : PikComfortReceiptContent)
    (j : ReceiptContentPayload) : Except PyErr PikComfortReceiptContent := do
  pyAssert (c.id = j._uid) "UID does not match"
  pyAssert (c.type = j._type) "type does not match"
  let tbs ← TurnoverBalanceRecord.update_list_with_models
    c.turnover_balance_records j.turnover_balance_records
  .ok { c with
        turnover_balance_records := tbs
        import_id := j.import_id
        title := j.title
        display_name := j.display_name
        address := j.address
        request_phone := j.request_phone
        dispatcher_phone := j.dispatcher_phone
        charge := j.charge
        corrections := j.charge_correct
        payment := j.payment
        initial := j.incoming_balance
        subsidy := j.subsidy
        penalty := j.penalty
        total := j.total }

/-! ## PikComfortReceipt (api.py lines 1106-1201)

`PikComfortReceipt.update_from_json` (line 1165) executes
`self.contents = json_data["main"]`, storing the **raw JSON list** into a
field annotated `List[PikComfortReceiptContent]` right after having
reconciled the typed objects in place.  Because the Python list is
heterogeneous at runtime, the model's `contents` field is a list of a sum
type: `typed` entries are `PikComfortReceiptContent` instances, `raw`
entries are the JSON dictionaries left behind by that assignment.
Attribute access (`.id` / `.type`) on a `raw` entry raises
`AttributeError`, exactly as it would on a Python `dict`. -/

inductive ContentsEntry where
  | typed (c : PikComfortReceiptContent)
  | raw (j : ReceiptContentPayload)
  deriving DecidableEq, Repr

/-- `existing_object.id` / `existing_object.type` on a contents-list entry. -/
def ContentsEntry.idType : ContentsEntry → Except PyErr (String × String)
  | .typed c => .ok (c.id, c.type)
  | .raw _ => .error .attributeError

structure ReceiptPayload where
  _type : String
  period : Int
  charge : ℚ
  charge_correct : ℚ
  payment : ℚ
  incoming_balance : ℚ
  subsidy : ℚ
  total : ℚ
  penalty : ℚ
  main : List ReceiptContentPayload
  paid : Option ℚ
  debt : Option ℚ
  deriving DecidableEq, Repr

structure PikComfortReceipt where
  type : String
  period : Int
  charge : ℚ
  corrections : ℚ
  payment : ℚ
  initial : ℚ
  subsidy : ℚ
  total : ℚ
  penalty : ℚ
  contents : List ContentsEntry
  paid : Option ℚ := none
  debt : Option ℚ := none
  deriving DecidableEq, Repr

/-- Scan of `PikComfortReceiptContent.update_list_with_models` over the
runtime contents list (generic classmethod, api.py lines 457-463): walks the
list reading `.type` / `.id` of each entry, which raises on a raw entry. -/
def contentsFind (uid ty : String) :
    List ContentsEntry → Except PyErr (Option (Nat × PikComfortReceiptContent))
  | [] => .ok none
  | e :: rest => do
    let k ← e.idType
    if k.2 = ty ∧ k.1 = uid then
      match e with
      | .typed c => .ok (some (0, c))
      | .raw _ => .error .attributeError
    else
      (contentsFind uid ty rest).map (fun r => r.map (fun p => (p.1 + 1, p.2)))

/-- First pass of the generic reconcile applied to the contents list. -/
def contentsUpdateLoop :
    List ContentsEntry → List ReceiptContentPayload → List (String × String) →
    Except PyErr (List ContentsEntry × List (String × String))
  | target, [], cleanup => .ok (target, cleanup)
  | target, j :: rest, cleanup => do
    let k := (j._uid, j._type)
    let cleanup1 := setAdd cleanup k
    match ← contentsFind j._uid j._type target with
    | none =>
      contentsUpdateLoop
        (target ++ [.typed (PikComfortReceiptContent.create_from_json j)]) rest cleanup1
    | some (i, c) => do
      let c1 ← c.update_from_json j
      contentsUpdateLoop (target.set i (.typed c1)) rest cleanup1

/-- Second pass of the generic reconcile applied to the contents list;
reads `(current_object.id, current_object.type)`, raising on raw entries. -/
def contentsCleanupPass :
    List ContentsEntry → List ContentsEntry → List (String × String) →
    Except PyErr (List ContentsEntry)
  | [], cur, _ => .ok cur
  | e :: rest, cur, cl => do
    let k ← e.idType
    if k ∈ cl then
      contentsCleanupPass rest cur (removeFirst cl k)
    else
      contentsCleanupPass rest (removeFirst cur e) cl

/-- `PikComfortReceiptContent.update_list_with_models` as executed on a
receipt's runtime contents list. -/
def PikComfortReceiptContent.update_list_with_models
    (target : List ContentsEntry) (payload : List ReceiptContentPayload) :
    Except PyErr (List ContentsEntry) := do
  let (t1, cl) ← contentsUpdateLoop target payload []
  contentsCleanupPass t1.reverse t1 cl

def PikComfortReceipt.create_from_json (j : ReceiptPayload) : PikComfortReceipt :=
  { type := j._type
    period := j.period
    charge := j.charge
    corrections := j.charge_correct
    payment := j.payment
    initial := j.incoming_balance
    subsidy := j.subsidy
    total := j.total
    penalty := j.penalty
    contents := j.main.map (fun c => .typed (PikComfortReceiptContent.create_from_json c))
    paid := j.paid
    debt := j.debt }

/-- `PikComfortReceipt.update_from_json` (api.py lines 1147-1168): asserts
`(type, period)` identity, reconciles the contents in place, updates the
scalars — and then executes `self.contents = json_data["main"]` (line 1165),
replacing the just-reconciled typed objects with the raw JSON list. -/
def PikComfortReceipt.update_from_json (r : PikComfortReceipt)
    (j : ReceiptPayload) : Except PyErr PikComfortReceipt := do
  pyAssert (r.type = j._type) "type does not match"
  pyAssert (r.period = j.period) "period does not match"
  let _reconciled ← PikComfortReceiptContent.update_list_with_models r.contents j.main
  .ok { r with
        charge := j.charge
        corrections := j.charge_correct
        payment := j.payment
        initial := j.incoming_balance
        subsidy := j.subsidy
        total := j.total
        penalty := j.penalty
        contents := j.main.map ContentsEntry.raw
        paid := j.paid
        debt := j.debt }

/-- `PikComfortReceipt.update_list_with_models` (api.py lines 1170-1201):
receipts are keyed by `(_type, period)` instead of `(_uid, _type)`. -/
def PikComfortReceipt.update_list_with_models
    (target : List PikComfortReceipt) (payload : List ReceiptPayload) :
    Except PyErr (List PikComfortReceipt) :=
  updateListWithModels (fun j => (j._type, j.period)) (fun r => (r.type, r.period))
    PikComfortReceipt.create_from_json
    PikComfortReceipt.update_from_json target payload

/-! ## Tariff (api.py lines 1468-1544) -/

structure TariffPayload where
  type : Int
  value : ℚ
  average_in_month : ℚ
  user_value : Option ℚ
  user_value_created : Option Int
  user_value_updated : Option Int
  deriving DecidableEq, Repr

structure Tariff where
  type : Int
  value : ℚ
  average_in_month : ℚ
  user_value : Option ℚ := none
  user_value_updated : Option Int := none
  user_value_created : Option Int := none
  deriving DecidableEq, Repr

def Tariff.create_from_json (j : TariffPayload) : Tariff :=
  { type := j.type
    value := j.value
    average_in_month := j.average_in_month
    user_value := j.user_value
    user_value_created := j.user_value_created
    user_value_updated := j.user_value_updated }

def Tariff.update_from_json (t : Tariff) (j : TariffPayload) :
    Except PyErr Tariff := do
  pyAssert (t.type = j.type) "types do not match"
  .ok { t with
        value := j.value
        average_in_month := j.average_in_month
        user_value := j.user_value
        user_value_created := j.user_value_created
        user_value_updated := j.user_value_updated }

/-- First pass of `Tariff.update_list_with_models` (api.py lines 1523-1538).
The source body is defective in two ways, both modelled:

* the scan condition is `if tariff_type.type == tariff_type:` where
  `tariff_type` is the payload's `int` — evaluating `.type` on an `int`
  raises `AttributeError` as soon as the target list has any element;
* the miss branch calls `cls.create_from_json(item_data)` without the
  `api_object` argument the two-parameter classmethod requires, raising
  `TypeError` whenever it is reached (i.e. when the target list is empty).

Consequently the first pass fails on every non-empty payload. -/
def tariffUpdateLoop :
    List Tariff → List TariffPayload → List Int →
    Except PyErr (List Tariff × List Int)
  | target, [], cleanup => .ok (target, cleanup)
  | target, j :: _, cleanup =>
    let _cleanup1 := setAdd cleanup j.type
    match target with
    | [] => .error .typeError
    | _ :: _ => .error .attributeError

/-- `Tariff.update_list_with_models` (api.py lines 1519-1544): first pass as
above, then the usual reverse cleanup pass keyed by the tariff number. -/
def Tariff.update_list_with_models (target : List Tariff)
    (payload : List TariffPayload) : Except PyErr (List Tariff) := do
  let (t1, cl) ← tariffUpdateLoop target payload []
  .ok (cleanupPass (fun t => t.type) t1.reverse t1 cl)

/-! ## PikComfortMeter (api.py lines 1332-1465) -/

structure MeterPayload where
  _uid : String
  _type : String
  factory_number : String
  resource_type : Int
  has_user_readings : Bool
  is_auto : Bool
  import_id : String
  meter_type : Int
  is_individual : Bool
  unit_name : String
  recalibration_status : String
  last_period : String
  tariffs : List TariffPayload
  user_meter_name : Option String
  date_next_recalibration : Option Int
  deriving DecidableEq, Repr

structure PikComfortMeter where
  id : String
  type : String
  factory_number : String
  resource_type_id : Int
  has_user_readings : Bool
  is_auto : Bool
  import_id : String
  meter_type : Int
  is_individual : Bool
  unit_name : String
  recalibration_status : String
  last_period : String
  tariffs : List Tariff
  user_meter_name : Option String := none
  date_next_recalibration : Option Int := none
  deriving DecidableEq, Repr

/-- `PikComfortMeter.resource_type` (api.py lines 1348-1350). -/
def PikComfortMeter.resource_type (m : PikComfortMeter) : MeterResourceType :=
  meterResourceTypeOf m.resource_type_id

def PikComfortMeter.create_from_json (j : MeterPayload) : PikComfortMeter :=
  { id := j._uid
    type := j._type
    factory_number := j.factory_number
    resource_type_id := j.resource_type
    has_user_readings := j.has_user_readings
    is_auto := j.is_auto
    import_id := j.import_id
    meter_type := j.meter_type
    is_individual := j.is_individual
    unit_name := j.unit_name
    recalibration_status := j.recalibration_status
    last_period := j.last_period
    user_meter_name := j.user_meter_name
    tariffs := j.tariffs.map Tariff.create_from_json
    date_next_recalibration := j.date_next_recalibration }

def PikComfortMeter.update_from_json (m : PikComfortMeter) (j : MeterPayload) :
    Except PyErr PikComfortMeter := do
  pyAssert (m.id = j._uid) "UID does not match"
  pyAssert (m.type = j._type) "type does not match"
  let ts ← Tariff.update_list_with_models m.tariffs j.tariffs
  .ok { m with
        tariffs := ts
        factory_number := j.factory_number
        resource_type_id := j.resource_type
        has_user_readings := j.has_user_readings
        is_auto := j.is_auto
        import_id := j.import_id
        meter_type := j.meter_type
        is_individual := j.is_individual
        unit_name := j.unit_name
        recalibration_status := j.recalibration_status
        last_period := j.last_period
        user_meter_name := j.user_meter_name
        date_next_recalibration := j.date_next_recalibration }

/-! ## PaymentPointDetails and PikComfortPayment (api.py lines 1558-1630) -/

structure PaymentPointDetailsPayload where
  icon_name : String
  normalized_name : String
  color : String
  deriving DecidableEq, Repr

structure PaymentPointDetails where
  icon_name : String
  normalized_name : String
  color : String
  deriving DecidableEq, Repr

def PaymentPointDetails.create_from_json (j : PaymentPointDetailsPayload) :
    PaymentPointDetails :=
  { icon_name := j.icon_name
    normalized_name := j.normalized_name
    color := j.color }

def PaymentPointDetails.update_from_json (_d : PaymentPointDetails)
    (j : PaymentPointDetailsPayload) : Except PyErr PaymentPointDetails :=
  .ok { icon_name := j.icon_name
        normalized_name := j.normalized_name
        color := j.color }

structure PaymentPayload where
  _uid : String
  _type : String
  amount : ℚ
  status : Int
  check_url : String
  bank_id : String
  payment_date : Int
  payment_type : Int
  payment_point : String
  payment_point_details : PaymentPointDetailsPayload
  deriving DecidableEq, Repr

structure PikComfortPayment where
  id : String
  type : String
  amount : ℚ
  status_id : Int
  check_url : String
  bank_id : String
  timestamp : Int
  payment_type : Int
  source_name : String
  source_details : PaymentPointDetails
  deriving DecidableEq, Repr

/-- `PikComfortPayment.status` (api.py lines 1591-1593): total via the
enum's `_missing_`. -/
def PikComfortPayment.status (p : PikComfortPayment) : PaymentStatus :=
  paymentStatusOf p.status_id

def PikComfortPayment.create_from_json (j : PaymentPayload) : PikComfortPayment :=
  { id := j._uid
    type := j._type
    amount := j.amount
    status_id := j.status
    check_url := j.check_url
    bank_id := j.bank_id
    timestamp := j.payment_date
    payment_type := j.payment_type
    source_name := j.payment_point
    source_details := PaymentPointDetails.create_from_json j.payment_point_details }

def PikComfortPayment.update_from_json (p : PikComfortPayment)
    (j : PaymentPayload) : Except PyErr PikComfortPayment := do
  pyAssert (p.id = j._uid) "UID does not match"
  pyAssert (p.type = j._type) "type does not match"
  let sd ← p.source_details.update_from_json j.payment_point_details
  .ok { p with
        source_details := sd
        amount := j.amount
        status_id := j.status
        check_url := j.check_url
        bank_id := j.bank_id
        timestamp := j.payment_date
        payment_type := j.payment_type
        source_name := j.payment_point }

/-! ## Plain attrs records without JSON constructors
(api.py lines 1633-1687: `Insurance`, `HotCategory`, `AccountNotification`,
`Action`, `Datum`).  These are declared but never populated from payloads by
the modelled code (`accounts` are created with `account_notifications=[]`,
`InfoResult` with empty `hot_categories`). -/

structure Datum where
  reason : String
  deriving DecidableEq, Repr

/-- Source name `Action`; renamed here because Mathlib already declares `Action`. -/
structure NotificationAction where
  _id : String
  _type : String
  device_type : Int
  action_type : Int
  payload : String
  button_type : Int
  button_title : String
  data : Option Datum := none
  deriving DecidableEq, Repr

structure AccountNotification where
  _id : String
  _type : String
  created : String
  title : String
  short_text : String
  date_to : Option Int
  scopes : List Int
  notification_type : Int
  full_text : String
  image_x2 : Option Int
  is_urgent : Bool
  is_viewed : Bool
  actions : List NotificationAction
  date_from : Option String := none
  image : Option PikComfortAttachmentImage := none
  image_x1 : Option PikComfortAttachmentImage := none
  deriving DecidableEq, Repr

structure Insurance where
  _id : String
  _type : String
  is_active : Bool
  in_progress : Bool
  is_paid : Bool
  rate : ℚ
  deriving DecidableEq, Repr

structure HotCategory where
  _id : String
  _type : String
  title : String
  icon_name : String
  classifier_id : String
  deriving DecidableEq, Repr

/-! ## PikComfortAccount (api.py lines 546-773) -/

structure AccountPayload where
  _uid : String
  _type : String
  banned : Bool
  address : String
  premise_number : String
  has_account_number : Bool
  import_id : String
  number : Option String
  debt : ℚ
  userpayment_in_processing : ℚ
  bill_type : String
  brand_code : String
  is_active : Bool
  is_moe : Bool
  is_prepaid : Bool
  new_receipt_day : Int
  is_partial_pay_available : Bool
  pay_methods_available : List String
  terminal_key : String
  available_services : List String
  tickets_count : Int
  tickets_are_viewed : Bool
  pik_rent_available : Bool
  final_payment_day : Int
  final_reading_day : Int
  chat_state : Int
  chat_schedule_description : String
  emergency_phone_number : Option String
  last_readings_date : Option Int
  last_turnover_date : Option Int
  linked_at : Int
  premise : PremisePayload
  building : BuildingPayload
  address_formats : AddressFormatPayload
  tickets : List TicketPayload
  receipts : List ReceiptPayload
  meters : List MeterPayload
  payments : List PaymentPayload
  deriving DecidableEq, Repr

structure PikComfortAccount where
  id : String
  type : String
  banned : Bool
  address : String
  premise_number : String
  has_account_number : Bool
  import_id : String
  number : Option String
  debt : ℚ
  userpayment_in_processing : ℚ
  bill_type : String
  brand_code : String
  is_active : Bool
  is_moe : Bool
  is_prepaid : Bool
  new_receipt_day : Int
  is_partial_pay_available : Bool
  pay_methods_available : List String
  terminal_key : String
  available_services : List String
  tickets_count : Int
  tickets_are_viewed : Bool
  pik_rent_available : Bool
  final_payment_day : Int
  final_reading_day : Int
  chat_state : Int
  chat_schedule_description : String
  emergency_phone_number : Option String
  last_readings_date : Option Int
  last_turnover_date : Option Int
  linked_at : Int
  premise : PikComfortPremise
  building : PikComfortBuilding
  address_formats : PikComfortAddressFormat
  payments : List PikComfortPayment
  receipts : List PikComfortReceipt
  meters : List PikComfortMeter
  account_notifications : List AccountNotification
  tickets : List PikComfortTicket
  insurance : Option Insurance := none
  deriving DecidableEq, Repr

/-- Lexicographic `≤` on pairs of integers, i.e. Python tuple comparison. -/
def lexLe (a b : Int × Int) : Bool :=
  decide (a.1 < b.1 ∨ (a.1 = b.1 ∧ a.2 ≤ b.2))

/-- `next(iter(sorted(enumerate(l), key, reverse=True)))[1]` with
`key = lambda x: (field(x[1]), -x[0])` — the shared shape of `last_payment`
and `last_receipt` (api.py lines 589-619).  `sorted(..., reverse=True)`
produces a list whose keys are non-increasing; `next(iter(...))` takes its
first element, and the `StopIteration` on an empty list is turned into
`None`. -/
def pyLastByKey {α : Type} (field : α → Int) (l : List α) : Option α :=
  ((l.enum.mergeSort
      (fun x y => lexLe (field y.2, -(y.1 : Int)) (field x.2, -(x.1 : Int)))).head?).map
    (fun x => x.2)

/-- `PikComfortAccount.last_payment` (api.py lines 589-603). -/
def PikComfortAccount.last_payment (a : PikComfortAccount) :
    Option PikComfortPayment :=
  pyLastByKey (fun p => p.timestamp) a.payments

/-- `PikComfortAccount.last_receipt` (api.py lines 605-619). -/
def PikComfortAccount.last_receipt (a : PikComfortAccount) :
    Option PikComfortReceipt :=
  pyLastByKey (fun r => r.period) a.receipts

/-- `PikComfortAccount.create_from_json` (api.py lines 639-707).  Note the
normalisation `number=json_data.get("number") or None` (line 673). -/
def PikComfortAccount.create_from_json (j : AccountPayload) : PikComfortAccount :=
  { id := j._uid
    type := j._type
    banned := j.banned
    address := j.address
    premise_number := j.premise_number
    has_account_number := j.has_account_number
    import_id := j.import_id
    number := pyStrOrNone j.number
    debt := j.debt
    last_readings_date := j.last_readings_date
    last_turnover_date := j.last_turnover_date
    userpayment_in_processing := j.userpayment_in_processing
    bill_type := j.bill_type
    brand_code := j.brand_code
    is_active := j.is_active
    is_moe := j.is_moe
    is_prepaid := j.is_prepaid
    new_receipt_day := j.new_receipt_day
    is_partial_pay_available := j.is_partial_pay_available
    pay_methods_available := j.pay_methods_available
    terminal_key := j.terminal_key
    available_services := j.available_services
    tickets_count := j.tickets_count
    tickets_are_viewed := j.tickets_are_viewed
    pik_rent_available := j.pik_rent_available
    final_payment_day := j.final_payment_day
    final_reading_day := j.final_reading_day
    chat_state := j.chat_state
    chat_schedule_description := j.chat_schedule_description
    emergency_phone_number := j.emergency_phone_number
    linked_at := j.linked_at
    premise := PikComfortPremise.create_from_json j.premise
    address_formats := PikComfortAddressFormat.create_from_json j.address_formats
    building := PikComfortBuilding.create_from_json j.building
    tickets := j.tickets.map PikComfortTicket.create_from_json
    receipts := j.receipts.map PikComfortReceipt.create_from_json
    meters := j.meters.map PikComfortMeter.create_from_json
    payments := j.payments.map PikComfortPayment.create_from_json
    account_notifications := [] }

/-- `PikComfortAccount.update_from_json` (api.py lines 709-757): asserts the
`(_uid, _type)` identity, reconciles the nested address formats, building,
premise, tickets and receipts (meters and payments are left untouched), then
overwrites the scalars.  Note `self.number = json_data["number"]` (line 733)
assigns the payload value verbatim, without the `or None` normalisation used
at construction. -/
def PikComfortAccount.update_from_json (a : PikComfortAccount)
    (j : AccountPayload) : Except PyErr PikComfortAccount := do
  pyAssert (a.id = j._uid) "UID does not match"
  pyAssert (a.type = j._type) "type does not match"
  let af ← a.address_formats.update_from_json j.address_formats
  let bld ← a.building.update_from_json j.building
  let prem ← a.premise.update_from_json j.premise
  let tks ← PikComfortTicket.update_list_with_models a.tickets j.tickets
  let rcs ← PikComfortReceipt.update_list_with_models a.receipts j.receipts
  .ok { a with
        address_formats := af
        building := bld
        premise := prem
        tickets := tks
        receipts := rcs
        banned := j.banned
        address := j.address
        premise_number := j.premise_number
        has_account_number := j.has_account_number
        import_id := j.import_id
        number := j.number
        debt := j.debt
        last_readings_date := j.last_readings_date
        last_turnover_date := j.last_turnover_date
        userpayment_in_processing := j.userpayment_in_processing
        bill_type := j.bill_type
        brand_code := j.brand_code
        is_active := j.is_active
        is_moe := j.is_moe
        is_prepaid := j.is_prepaid
        new_receipt_day := j.new_receipt_day
        is_partial_pay_available := j.is_partial_pay_available
        pay_methods_available := j.pay_methods_available
        terminal_key := j.terminal_key
        available_services := j.available_services
        tickets_count := j.tickets_count
        tickets_are_viewed := j.tickets_are_viewed
        pik_rent_available := j.pik_rent_available
        final_payment_day := j.final_payment_day
        final_reading_day := j.final_reading_day
        chat_state := j.chat_state
        chat_schedule_description := j.chat_schedule_description
        emergency_phone_number := j.emergency_phone_number
        linked_at := j.linked_at }

def PikComfortAccount.update_list_with_models
    (target : List PikComfortAccount) (payload : List AccountPayload) :
    Except PyErr (List PikComfortAccount) :=
  updateListWithModels (fun j => (j._uid, j._type)) (fun a => (a.id, a.type))
    PikComfortAccount.create_from_json
    PikComfortAccount.update_from_json target payload

/-! ## InfoResult (api.py lines 478-543) -/

structure InfoResultPayload where
  _uid : String
  _type : String
  phone : String
  gender : String
  first_name : String
  middle_name : String
  last_name : String
  snils : Option String
  passport_type : Option String
  passport_number : Option String
  birth_date : String
  email : Option String
  email_verified : Bool
  accounts : List AccountPayload
  deriving DecidableEq, Repr

structure InfoResult where
  id : String
  type : String
  phone : String
  gender : String
  first_name : String
  middle_name : String
  last_name : String
  snils : Option String
  passport_type : Option String
  passport_number : Option String
  birth_date : String
  email : Option String
  email_verified : Bool
  accounts : List PikComfortAccount
  completed_tutorials : List String
  hot_categories : List HotCategory
  deriving DecidableEq, Repr

def InfoResult.create_from_json (j : InfoResultPayload) : InfoResult :=
  { id := j._uid
    type := j._type
    phone := j.phone
    gender := j.gender
    first_name := j.first_name
    middle_name := j.middle_name
    last_name := j.last_name
    snils := j.snils
    passport_type := j.passport_type
    passport_number := j.passport_number
    birth_date := j.birth_date
    email := j.email
    email_verified := j.email_verified
    accounts := j.accounts.map PikComfortAccount.create_from_json
    completed_tutorials := []
    hot_categories := [] }

/-- `InfoResult.update_from_json` (api.py lines 526-543): reconciles the
accounts, then — with no identity assertion — assigns `self.id` and
`self.type` from the payload along with the scalars. -/
def InfoResult.update_from_json (i : InfoResult) (j : InfoResultPayload) :
    Except PyErr InfoResult := do
  let accs ← PikComfortAccount.update_list_with_models i.accounts j.accounts
  .ok { i with
        accounts := accs
        id := j._uid
        type := j._type
        phone := j.phone
        gender := j.gender
        first_name := j.first_name
        middle_name := j.middle_name
        last_name := j.last_name
        snils := j.snils
        passport_type := j.passport_type
        passport_number := j.passport_number
        birth_date := j.birth_date
        email := j.email
        email_verified := j.email_verified }

/-! ## TicketClassifier (api.py lines 1778-1906) -/

structure ClassifierPayload where
  _uid : String
  _type : String
  name : String
  level : Int
  created : Int
  updated : Int
  parent : Option String
  hint : Option String
  deriving DecidableEq, Repr

structure TicketClassifier where
  id : String
  type : String
  name : String
  level : Int
  created_at : Int
  updated_at : Int
  parent_id : Option String := none
  hint : Option String := none
  deriving DecidableEq, Repr

/-- `TicketClassifier.create_from_json` (api.py lines 1787-1806): a parent
reference equal to the node's own id is normalised to `None`, and
`hint=json_data.get("hint") or None`. -/
def TicketClassifier.create_from_json (j : ClassifierPayload) : TicketClassifier :=
  { id := j._uid
    type := j._type
    name := j.name
    level := j.level
    created_at := j.created
    updated_at := j.updated
    parent_id := if j.parent = some j._uid then none else j.parent
    hint := pyStrOrNone j.hint }

/-- `TicketClassifier.update_from_json` (api.py lines 1808-1825). -/
def TicketClassifier.update_from_json (c : TicketClassifier)
    (j : ClassifierPayload) : Except PyErr TicketClassifier := do
  pyAssert (c.id = j._uid) "UID does not match"
  pyAssert (c.type = j._type) "type does not match"
  .ok { c with
        name := j.name
        level := j.level
        created_at := j.created
        updated_at := j.updated
        parent_id := if j.parent = some j._uid then none else j.parent
        hint := pyStrOrNone j.hint }

/-- `TicketClassifier.parent` (api.py lines 1827-1841), with the session's
cached classifier list passed explicitly for `self.api.classifiers` (the
claims only concern the state where it is present).  `if not parent_id`
treats both `None` and the empty string as absent. -/
def TicketClassifier.parentIn (cs : List TicketClassifier)
    (c : TicketClassifier) : Option TicketClassifier :=
  match c.parent_id with
  | none => none
  | some pid =>
    if pid = "" then none
    else cs.find? (fun k => k.id = pid)

/-- `TicketClassifier.children` (api.py lines 1855-1863). -/
def TicketClassifier.childrenIn (cs : List TicketClassifier)
    (c : TicketClassifier) : List TicketClassifier :=
  cs.filter (fun k => k.parent_id = some c.id)

/-- The body of the `while` loop of `TicketClassifier.path_from` (api.py
lines 1869-1886), with an explicit iteration budget (`fuel`).  `none` means
the budget ran out — i.e. would stand for non-termination; the theorems show
a budget of `cs.length + 2` always suffices.  The membership test
`path_item in path` compares records field-wise, exactly as Python's `in`
does on `attr.s(eq=True)` instances. -/
def pathFromAux (cs : List TicketClassifier) :
    Nat → List TicketClassifier → TicketClassifier →
    Option (Except PyErr (List TicketClassifier))
  | 0, _, _ => none
  | fuel + 1, path, item =>
    if item ∈ path then
      some (.error (.pikComfortException "Path loop detected"))
    else
      match TicketClassifier.parentIn cs item with
      | none => some (.ok (path ++ [item]))
      | some p => pathFromAux cs fuel (path ++ [item]) p

/-- `TicketClassifier.path_from` for a cached classifier list `cs`. -/
def TicketClassifier.path_from (cs : List TicketClassifier)
    (c : TicketClassifier) : Option (Except PyErr (List TicketClassifier)) :=
  pathFromAux cs (cs.length + 2) [] c

/-- `TicketClassifier.path_to` (api.py lines 1865-1867): the reverse. -/
def TicketClassifier.path_to (cs : List TicketClassifier)
    (c : TicketClassifier) : Option (Except PyErr (List TicketClassifier)) :=
  (TicketClassifier.path_from cs c).map (fun r => r.map List.reverse)

/-! ## PikComfortAPI.async_create_ticket (api.py lines 337-411)

Everything up to the transport call is pure validation; the model returns
the request body that would be posted (`.ok`) or the exception raised
before any network interaction (`.error`).  The session state read by the
method (`self.info`, `self._classifiers`) is passed explicitly. -/

structure TicketRequest where
  classifier_id : String
  description : String
  account_id : Option String
  deriving DecidableEq, Repr

/-- The `if account_id is None or check_account:` block (lines 346-366). -/
def resolveAccountId (info : Option InfoResult) (account_id : Option String)
    (check_account : Bool) : Except PyErr (Option String) :=
  if account_id = none ∨ check_account then
    match info with
    | none => .error (.pikComfortException "Information must be updated")
    | some info =>
      let accounts := info.accounts
      if account_id = none ∧ accounts.length > 1 then
        .error (.pikComfortException "More than one account to guess")
      else if accounts = [] then
        .error (.pikComfortException "No account to derive ID from")
      else
        match account_id with
        | none => .ok (accounts.head?.map (fun a => a.id))
        | some aid =>
          match accounts.find? (fun a => a.id = aid) with
          | none => .error (.pikComfortException "No matching account within info")
          | some _ => .ok (some aid)
  else
    .ok account_id

/-- `PikComfortAPI.async_create_ticket` up to (and excluding) the transport
call: account resolution, then — when `check_classifier` — existence and
leaf-ness of the classifier in the cached set (lines 368-389). -/
def asyncCreateTicketCheck (info : Option InfoResult)
    (classifiers : Option (List TicketClassifier))
    (classifier_id : String) (description : String)
    (account_id : Option String)
    (check_account : Bool) (check_classifier : Bool) :
    Except PyErr TicketRequest := do
  let aid ← resolveAccountId info account_id check_account
  if check_classifier then
    match classifiers with
    | none => .error (.pikComfortException "Classifiers must be updated")
    | some cs =>
      match cs.find? (fun c => c.id = classifier_id) with
      | none => .error (.pikComfortException "Classifier was not found")
      | some fc =>
        if TicketClassifier.childrenIn cs fc ≠ [] then
          .error (.pikComfortException "Classifier contains children")
        else
          .ok { classifier_id := classifier_id
                description := description
                account_id := aid }
  else
    .ok { classifier_id := classifier_id
          description := description
          account_id := aid }

/-! ## Meter readings submission

`PikComfortMeterSensor.get_submit_call_args` (binary_sensor.py lines
237-265) turns the service-call readings into a `{tariff_number: value}`
mapping, adding `max(tariff.value or 0.0, tariff.user_value or 0.0)` to the
submitted value when the call is incremental.  `PikComfortMeter.
async_submit_readings` (api.py lines 1406-1465) then builds one request
entry per mapping item, submitting each value as given. -/

/-- `value or 0.0` on an optional float (`None` and `0.0` are falsy). -/
def pyFloatOr0 (x : Option ℚ) : ℚ :=
  match x with
  | none => 0
  | some v => if v = 0 then 0 else v

/-- Decimal digit value of a character, `none` when it is not a digit. -/
def digitVal (c : Char) : Option Nat :=
  if c.toNat ≥ 48 ∧ c.toNat ≤ 57 then some (c.toNat - 48) else none

/-- Parse a run of decimal digits (most significant first). -/
def digitsToNat : List Char → Nat → Option Nat
  | [], acc => some acc
  | c :: rest, acc =>
    match digitVal c with
    | none => none
    | some d => digitsToNat rest (acc * 10 + d)

/-- Python `int(s)` on a non-negative decimal literal; `none` models the
`ValueError` raised on a malformed literal. -/
def pyIntOfDigits : List Char → Option Int
  | [] => none
  | l => (digitsToNat l 0).map (fun n => (n : Int))

/-- Python `max(a, b)` on floats (returns the first argument on ties). -/
def pyMax (a b : ℚ) : ℚ := if b ≤ a then a else b

/-- Python dict insertion: overwrite in place when the key exists, append
otherwise. -/
def dictInsert {K V : Type} [DecidableEq K] :
    List (K × V) → K → V → List (K × V)
  | [], k, v => [(k, v)]
  | (k0, v0) :: rest, k, v =>
    if k0 = k then (k0, v) :: rest else (k0, v0) :: dictInsert rest k v

/-- Loop body of `get_submit_call_args`: `int(zone_id[1:])` parses the zone
key (`"t<n>"`), the tariff is looked up by its number, and the increment is
applied when requested. -/
def getSubmitCallArgsLoop (tariffs : List Tariff) (is_incremental : Bool) :
    List (String × ℚ) → List (Int × ℚ) → Except PyErr (List (Int × ℚ))
  | [], acc => .ok acc
  | (zone_id, new_value) :: rest, acc =>
    match pyIntOfDigits (zone_id.data.drop 1) with
    | none => .error (.valueError "invalid literal for int")
    | some tariff_type =>
      match tariffs.find? (fun t => t.type = tariff_type) with
      | none => .error (.valueError "meter zone does not exist")
      | some existing_tariff =>
        let v :=
          if is_incremental then
            new_value + pyMax (if existing_tariff.value = 0 then 0 else existing_tariff.value)
              (pyFloatOr0 existing_tariff.user_value)
          else new_value
        getSubmitCallArgsLoop tariffs is_incremental rest (dictInsert acc tariff_type v)

/-- `PikComfortMeterSensor.get_submit_call_args` (binary_sensor.py 237-265). -/
def getSubmitCallArgs (tariffs : List Tariff)
    (indications : List (String × ℚ)) (is_incremental : Bool) :
    Except PyErr (List (Int × ℚ)) :=
  getSubmitCallArgsLoop tariffs is_incremental indications []

structure ReadingRequestEntry where
  value : ℚ
  tariff_type : Int
  meter : String
  meter_reading_uid : String
  deriving DecidableEq, Repr

/-- Request-building loop of `async_submit_readings` (api.py lines
1424-1441) for a mapping argument: each entry's `value` is submitted as
given; `meter_reading_uid` is the meter id concatenated with the tariff
number. -/
def buildReadingsRequest (meter_id : String) (tariffs : List Tariff) :
    List (Int × ℚ) → Except PyErr (List ReadingRequestEntry)
  | [] => .ok []
  | (tariff_id, value) :: rest =>
    match tariffs.find? (fun t => tariff_id = t.type) with
    | none => .error (.valueError "tariff does not exist")
    | some existing_tariff => do
      let entries ← buildReadingsRequest meter_id tariffs rest
      .ok ({ value := value
             tariff_type := existing_tariff.type
             meter := meter_id
             meter_reading_uid := meter_id ++ toString existing_tariff.type }
           :: entries)

/-- `PikComfortMeter.async_submit_readings` up to (and excluding) the HTTP
post: authentication guard (lines 1411-1412) and request construction. -/
def asyncSubmitReadingsRequest (token : Option String) (m : PikComfortMeter)
    (values : List (Int × ℚ)) : Except PyErr (List ReadingRequestEntry) := do
  if token = none then
    .error (.pikComfortException "API is not authenticated")
  else
    buildReadingsRequest m.id m.tariffs values

/-! ## The refresh delegator (`_base.py` lines 176-212)

`_async_update_delegator` runs on Home Assistant's single-threaded
cooperative event loop; its only suspension points are `await
collective_update_future` (waiters), `await asyncio.sleep(3)` (the
coalescing delay) and `await api_object.async_update_info()` (the fetch).
The code between two suspension points runs atomically.  The model is a
transition system over those atomic blocks:

* `arrive`  — a caller enters the delegator.  If the in-flight marker
  (`collective_update_future`) is set it taps into the existing future
  (lines 179-182); otherwise it becomes the leader: increments the
  counter, installs the future and starts the coalescing sleep
  (lines 186-191).
* `wake`    — the leader's sleep elapses and the single fetch is issued
  (line 194).
* `fetchReturn` — the fetch completes with outcome `o`.  On success the
  leader resolves the shared future with the result (lines 203-206); on a
  `PikComfortException` — the class the `except` clause at line 196
  catches, covering the transport taxonomy (`RequestError` and
  `ServerError` are subclasses) — it resolves the future with the
  exception (lines 196-201).  Any **other** exception escaping
  `async_update_info` (an `AssertionError` from an identity-mismatch
  assert, or the `AttributeError` reachable through the receipt-contents
  defect at api.py line 1165 on the third refresh of an account with a
  non-empty receipt) matches no `except` clause: neither `set_result` nor
  `set_exception` runs, so the shared future is never resolved and every
  tapped-in waiter keeps awaiting it forever.  In every case the `finally`
  clause clears the marker (lines 208-209), and the exception (caught and
  re-raised, or uncaught) propagates to the leader's own caller. -/

inductive Outcome where
  | success
  | failure (e : PyErr)
  deriving DecidableEq, Repr

/-- `isinstance(e, PikComfortException)`: in the source taxonomy
`RequestError`/`ServerError` subclass `PikComfortException` and are raised
through the `.pikComfortException` constructor of this model;
`AssertionError`, `AttributeError`, `TypeError` and `ValueError` are
unrelated built-ins. -/
def PyErr.isPikComfortException : PyErr → Bool
  | .pikComfortException _ => true
  | _ => false

inductive DelPhase where
  | idle | sleeping | fetching
  deriving DecidableEq, Repr

structure DelState where
  marker : Bool
  phase : DelPhase
  counter : Nat
  fetchCount : Nat
  waiters : Nat
  leaderResult : Option Outcome
  waiterResults : List Outcome
  deriving DecidableEq, Repr

inductive DelEvent where
  | arrive | wake | fetchReturn
  deriving DecidableEq, Repr

def delInit : DelState :=
  { marker := false
    phase := .idle
    counter := 0
    fetchCount := 0
    waiters := 0
    leaderResult := none
    waiterResults := [] }

def delStep (o : Outcome) (s : DelState) : DelEvent → DelState
  | .arrive =>
    if s.marker then
      { s with waiters := s.waiters + 1 }
    else
      { s with marker := true, phase := .sleeping, counter := s.counter + 1 }
  | .wake =>
    match s.phase with
    | .sleeping => { s with phase := .fetching, fetchCount := s.fetchCount + 1 }
    | _ => s
  | .fetchReturn =>
    match s.phase with
    | .fetching =>
      match o with
      | .success =>
        -- lines 203-206: set_result; waiters receive the result;
        -- finally (lines 208-209) clears the marker
        { s with
          phase := .idle
          marker := false
          leaderResult := some o
          waiterResults := s.waiterResults ++ List.replicate s.waiters o
          waiters := 0 }
      | .failure e =>
        if e.isPikComfortException then
          -- lines 196-201: the except clause catches PikComfortException,
          -- sets it on the future (waiters receive it) and re-raises
          { s with
            phase := .idle
            marker := false
            leaderResult := some o
            waiterResults := s.waiterResults ++ List.replicate s.waiters o
            waiters := 0 }
        else
          -- any other exception matches no except clause: the future is
          -- never resolved, so the tapped-in waiters keep awaiting it;
          -- the finally clause still clears the marker and the exception
          -- propagates to the leader's caller
          { s with
            phase := .idle
            marker := false
            leaderResult := some o }
    | _ => s

def delRun (o : Outcome) (events : List DelEvent) : DelState :=
  events.foldl (delStep o) delInit

/-- Any schedule in which one caller starts a refresh cycle and `a + b`
further callers arrive strictly inside it (`a` during the coalescing
delay, `b` during the fetch) is, up to reordering of indistinguishable
arrivals, of this shape. -/
def coalescingTrace (a b : Nat) : List DelEvent :=
  [.arrive] ++ List.replicate a .arrive ++ [.wake] ++
    List.replicate b .arrive ++ [.fetchReturn]

/-! ## Concrete sample inputs used by the theorems below -/

def sampleAddressFormatPayload : AddressFormatPayload :=
  { all := "full", street_only := "st", finishing_with_village := "v",
    starting_with_street := "s", finishing_with_street := "f" }

def samplePremisePayload : PremisePayload :=
  { _uid := "a", _type := "premise", number := "1", address := "addr",
    building := "b1", type := 0, common_space := 40, living_space := 30,
    nonliving_space := none, pay_space := none, user_premise_name := none,
    address_formats := sampleAddressFormatPayload }

/-- The same premise payload with a different `_uid`. -/
def samplePremisePayloadB : PremisePayload :=
  { samplePremisePayload with _uid := "b" }

def samplePremise : PikComfortPremise :=
  PikComfortPremise.create_from_json samplePremisePayload

def sampleBuildingPayload : BuildingPayload :=
  { _uid := "bld", _type := "building", address := "addr", type := 0,
    geo_location := (0, 0), common_space := none, nonliving_space := none,
    living_space := none, address_formats := sampleAddressFormatPayload }

def sampleAccountPayload : AccountPayload :=
  { _uid := "acc", _type := "account", banned := false, address := "addr",
    premise_number := "1", has_account_number := true, import_id := "i",
    number := some "123", debt := 0, userpayment_in_processing := 0,
    bill_type := "b", brand_code := "c", is_active := true, is_moe := false,
    is_prepaid := false, new_receipt_day := 1,
    is_partial_pay_available := false, pay_methods_available := [],
    terminal_key := "k", available_services := [], tickets_count := 0,
    tickets_are_viewed := true, pik_rent_available := false,
    final_payment_day := 10, final_reading_day := 25, chat_state := 0,
    chat_schedule_description := "", emergency_phone_number := none,
    last_readings_date := none, last_turnover_date := none, linked_at := 100,
    premise := samplePremisePayload, building := sampleBuildingPayload,
    address_formats := sampleAddressFormatPayload, tickets := [],
    receipts := [], meters := [], payments := [] }

def sampleAccount : PikComfortAccount :=
  PikComfortAccount.create_from_json sampleAccountPayload

/-- The account payload with a mismatching `_uid`. -/
def sampleAccountPayloadB : AccountPayload :=
  { sampleAccountPayload with _uid := "other" }

/-- The account payload carrying an empty-string `number`. -/
def sampleAccountPayloadEmptyNumber : AccountPayload :=
  { sampleAccountPayload with number := some "" }

def sampleContentPayload : ReceiptContentPayload :=
  { _uid := "c1", _type := "receiptcontent", import_id := "i", title := "t",
    display_name := none, address := "addr", request_phone := "p",
    dispatcher_phone := "d", charge := 10, charge_correct := 0, payment := 5,
    incoming_balance := 1, subsidy := 0, penalty := 0, total := 6,
    turnover_balance_records := [] }

def sampleReceiptPayload : ReceiptPayload :=
  { _type := "receipt", period := 202101, charge := 10, charge_correct := 0,
    payment := 5, incoming_balance := 1, subsidy := 0, total := 6,
    penalty := 0, main := [sampleContentPayload], paid := none, debt := none }

def sampleTariff : Tariff := { type := 1, value := 100, average_in_month := 0 }

def sampleTariffPayload : TariffPayload :=
  { type := 1, value := 120, average_in_month := 0, user_value := none,
    user_value_created := none, user_value_updated := none }

def sampleMeter : PikComfortMeter :=
  { id := "m1", type := "meter", factory_number := "f", resource_type_id := 1,
    has_user_readings := false, is_auto := false, import_id := "i",
    meter_type := 0, is_individual := true, unit_name := "u",
    recalibration_status := "ok", last_period := "", tariffs := [sampleTariff] }

def samplePaymentPoint : PaymentPointDetails :=
  { icon_name := "ic", normalized_name := "n", color := "c" }

def samplePayment (uid : String) (ts : Int) : PikComfortPayment :=
  { id := uid, type := "payment", amount := 1, status_id := 2,
    check_url := "", bank_id := "", timestamp := ts, payment_type := 0,
    source_name := "", source_details := samplePaymentPoint }

def sampleReceiptAt (period : Int) : PikComfortReceipt :=
  { type := "receipt", period := period, charge := 0, corrections := 0,
    payment := 0, initial := 0, subsidy := 0, total := 0, penalty := 0,
    contents := [] }

/-- An account with two payments (timestamps 5 then 9) and two receipts
(periods 3 then 7). -/
def sampleAccountWithHistory : PikComfortAccount :=
  { sampleAccount with
    payments := [samplePayment "p1" 5, samplePayment "p2" 9]
    receipts := [sampleReceiptAt 3, sampleReceiptAt 7] }

def cycleA : TicketClassifier :=
  { id := "A", type := "classifier", name := "a", level := 0,
    created_at := 0, updated_at := 0, parent_id := some "B" }

def cycleB : TicketClassifier :=
  { id := "B", type := "classifier", name := "b", level := 0,
    created_at := 0, updated_at := 0, parent_id := some "C" }

def cycleC : TicketClassifier :=
  { id := "C", type := "classifier", name := "c", level := 0,
    created_at := 0, updated_at := 0, parent_id := some "A" }

/-- A root classifier with one child. -/
def classifierRoot : TicketClassifier :=
  { id := "R", type := "classifier", name := "root", level := 0,
    created_at := 0, updated_at := 0, parent_id := none }

/-- A leaf classifier, child of `classifierRoot`. -/
def classifierLeaf : TicketClassifier :=
  { id := "L", type := "classifier", name := "leaf", level := 1,
    created_at := 0, updated_at := 0, parent_id := some "R" }

def sampleClassifiers : List TicketClassifier := [classifierRoot, classifierLeaf]

def sampleTicket (sid : Int) : PikComfortTicket :=
  { id := "t", type := "ticket", number := "", description := "",
    classifier_id := "", status_id := sid, is_viewed := false,
    last_status_changed := 0, created := 0, updated := 0,
    is_commentable := false, attachments := [], comments := [] }

deriving instance DecidableEq for Except

/-! ## Helper lemmas -/

/-- Decomposition of a successful `Except` bind. -/
theorem exceptBind_ok {ε α β : Type} {x : Except ε α} {f : α → Except ε β}
    {b : β} : x >>= f = .ok b ↔ ∃ a, x = .ok a ∧ f a = .ok b := by
  cases x <;> simp [Bind.bind, Except.bind]

/-- Arrivals while the in-flight marker is set only accumulate waiters. -/
theorem foldl_arrive_marker (o : Outcome) (n : Nat) (s : DelState)
    (hm : s.marker = true) :
    List.foldl (delStep o) s (List.replicate n .arrive) =
      { s with waiters := s.waiters + n } := by
  induction n generalizing s with
  | zero => simp
  | succ k ih =>
    rw [List.replicate_succ, List.foldl_cons]
    have hstep : delStep o s .arrive = { s with waiters := s.waiters + 1 } := by
      simp [delStep, hm]
    rw [hstep, ih _ (by simp [hm])]
    simp [Nat.add_assoc, Nat.add_comm 1 k]

/-- A resolved parent is an element of the classifier list. -/
theorem parentIn_mem {cs : List TicketClassifier} {c p : TicketClassifier}
    (h : TicketClassifier.parentIn cs c = some p) : p ∈ cs := by
  unfold TicketClassifier.parentIn at h
  cases hpid : c.parent_id with
  | none => rw [hpid] at h; exact absurd h (by simp)
  | some pid =>
    rw [hpid] at h
    by_cases he : pid = ""
    · simp [he] at h
    · simp only [if_neg he] at h
      exact List.mem_of_find?_eq_some h

/-- Pigeonhole argument for the path walk: the accumulated path is
duplicate-free and drawn from `U`, so a budget exceeding `U.length` by the
remaining slack never runs out. -/
theorem pathFromAux_isSome (cs U : List TicketClassifier)
    (hcs : ∀ x ∈ cs, x ∈ U) :
    ∀ (fuel : Nat) (path : List TicketClassifier) (item : TicketClassifier),
    path.Nodup → (∀ x ∈ path, x ∈ U) → item ∈ U →
    U.length + 1 ≤ fuel + path.length →
    (pathFromAux cs fuel path item).isSome := by
  intro fuel
  induction fuel with
  | zero =>
    intro path item hnd hsub _hitem hlen
    exfalso
    have hle : path.length ≤ U.length :=
      List.Subperm.length_le (List.subperm_of_subset hnd hsub)
    omega
  | succ k ih =>
    intro path item hnd hsub hitem hlen
    unfold pathFromAux
    by_cases hmem : item ∈ path
    · simp [hmem]
    · simp only [if_neg hmem]
      cases hp : TicketClassifier.parentIn cs item with
      | none => simp
      | some p =>
        apply ih (path ++ [item]) p
        · simp [List.nodup_append, hnd, hmem]
        · intro x hx
          rcases List.mem_append.mp hx with h | h
          · exact hsub x h
          · simp at h; subst h; exact hitem
        · exact hcs p (parentIn_mem hp)
        · simp; omega

/-- Specification of the `sorted(enumerate(l), key=(field, -index),
reverse=True)[0]` pattern: on a non-empty list it yields the element with
the greatest `field` value, breaking ties towards the smallest original
index. -/
theorem pyLastByKey_spec {α : Type} (field : α → Int) (l : List α)
    (hne : l ≠ []) :
    ∃ i, ∃ h : i < l.length,
      pyLastByKey field l = some (l.get ⟨i, h⟩) ∧
      ∀ j, ∀ hj : j < l.length,
        field (l.get ⟨j, hj⟩) ≤ field (l.get ⟨i, h⟩) ∧
        (field (l.get ⟨j, hj⟩) = field (l.get ⟨i, h⟩) → i ≤ j) := by
  set le : (Nat × α) → (Nat × α) → Bool :=
    fun x y => lexLe (field y.2, -(y.1 : Int)) (field x.2, -(x.1 : Int)) with hle
  have htrans : ∀ a b c, le a b = true → le b c = true → le a c = true := by
    intro a b c hab hbc
    simp only [hle, lexLe, decide_eq_true_eq] at *
    omega
  have htotal : ∀ a b, (le a b || le b a) = true := by
    intro a b
    simp only [hle, lexLe, Bool.or_eq_true, decide_eq_true_eq]
    omega
  have hperm : (l.enum.mergeSort le).Perm l.enum := List.mergeSort_perm l.enum le
  have hsorted := List.sorted_mergeSort htrans htotal l.enum
  have henum_ne : l.enum ≠ [] := by simp [hne]
  have hsort_ne : l.enum.mergeSort le ≠ [] := by
    intro hnil
    rw [hnil] at hperm
    exact henum_ne hperm.symm.eq_nil
  obtain ⟨hd, tl, heq⟩ := List.exists_cons_of_ne_nil hsort_ne
  have hhd_mem : hd ∈ l.enum := hperm.mem_iff.mp (heq ▸ List.mem_cons_self hd tl)
  obtain ⟨hi, hval⟩ := List.mem_enum (x := hd.2) (i := hd.1) (by simpa using hhd_mem)
  have hmax : ∀ x ∈ l.enum, le hd x := by
    intro x hx
    have hx' : x ∈ l.enum.mergeSort le := hperm.mem_iff.mpr hx
    rw [heq] at hx'
    rcases List.mem_cons.mp hx' with h | h
    · subst h
      simp [hle, lexLe]
    · rw [heq] at hsorted
      exact List.rel_of_pairwise_cons hsorted h
  refine ⟨hd.1, hi, ?_, ?_⟩
  · unfold pyLastByKey
    rw [← hle, heq]
    simp only [List.head?_cons, Option.map_some]
    exact congrArg some
      (by show hd.2 = l.get ⟨hd.1, hi⟩; rw [hval]; simp [List.get_eq_getElem])
  · intro j hj
    have hjmem : (j, l.get ⟨j, hj⟩) ∈ l.enum := by
      simp only [List.get_eq_getElem]
      have := List.getElem_enum l j (by simpa [List.enum_length] using hj)
      rw [← this]
      exact List.getElem_mem _
    have := hmax _ hjmem
    simp only [hle, lexLe, decide_eq_true_eq] at this
    have hv : l.get ⟨hd.1, hi⟩ = hd.2 := by rw [hval]; simp [List.get_eq_getElem]
    rw [hv]
    constructor
    · omega
    · intro heq2
      omega

/-! ## Claim theorems -/

/-- Claim C1 (code bug).  The claim states that running
`update_list_with_models` twice with the same payload is idempotent — the
list after the second run being element-wise identical to the list after
the first.  The code violates this: reconciling an empty receipt list with
a one-receipt payload (whose `main` is non-empty) succeeds and yields a
receipt with typed `PikComfortReceiptContent` objects, but the second run
routes through `PikComfortReceipt.update_from_json`, whose
`self.contents = json_data["main"]` (api.py line 1165) replaces them with
the raw JSON dictionaries, so the two results differ.  Moreover
`Tariff.update_list_with_models` cannot even complete one run on any
non-empty payload: its scan evaluates `tariff_type.type` on an `int`
(`AttributeError`, api.py line 1530) and its miss branch drops the
required `api_object` argument (`TypeError`, line 1535). -/
theorem claim_C1_reconcile_second_run_differs :
    (PikComfortReceipt.update_list_with_models [] [sampleReceiptPayload] =
      .ok [PikComfortReceipt.create_from_json sampleReceiptPayload]) ∧
    (PikComfortReceipt.update_list_with_models
        [PikComfortReceipt.create_from_json sampleReceiptPayload]
        [sampleReceiptPayload] =
      .ok [{ PikComfortReceipt.create_from_json sampleReceiptPayload with
             contents := sampleReceiptPayload.main.map ContentsEntry.raw }]) ∧
    ([PikComfortReceipt.create_from_json sampleReceiptPayload] ≠
      [{ PikComfortReceipt.create_from_json sampleReceiptPayload with
         contents := sampleReceiptPayload.main.map ContentsEntry.raw }]) ∧
    (Tariff.update_list_with_models [sampleTariff] [sampleTariffPayload] =
      .error .attributeError) ∧
    (Tariff.update_list_with_models [] [sampleTariffPayload] =
      .error .typeError) := by
  refine ⟨by decide, by decide, by decide, by decide, by decide⟩

/-- Claim C3 (code bug).  The claim states that after every
`update_from_json` the nested owned collections still hold the same typed
model instances, never raw JSON payload objects.  Updating a freshly
created receipt with its own payload succeeds, but afterwards the
`contents` collection holds exactly the raw JSON payload objects
(api.py line 1165), no longer the typed `PikComfortReceiptContent`
instances it held before the update. -/
theorem claim_C3_receipt_contents_become_raw :
    ∃ r2, (PikComfortReceipt.create_from_json sampleReceiptPayload).update_from_json
        sampleReceiptPayload = .ok r2 ∧
      r2.contents = sampleReceiptPayload.main.map ContentsEntry.raw ∧
      r2.contents ≠
        (PikComfortReceipt.create_from_json sampleReceiptPayload).contents ∧
      (∀ e ∈ (PikComfortReceipt.create_from_json sampleReceiptPayload).contents,
        ∃ tc, e = ContentsEntry.typed tc) := by
  refine ⟨{ PikComfortReceipt.create_from_json sampleReceiptPayload with
            contents := sampleReceiptPayload.main.map ContentsEntry.raw },
          by decide, by decide, by decide, ?_⟩
  intro e he
  refine ⟨PikComfortReceiptContent.create_from_json sampleContentPayload, ?_⟩
  have : (PikComfortReceipt.create_from_json sampleReceiptPayload).contents =
      [ContentsEntry.typed
        (PikComfortReceiptContent.create_from_json sampleContentPayload)] := by
    decide
  rw [this] at he
  simpa using he

/-- Claim C2 (corrected).  As amended: records such as
`PikComfortAccount` (and tickets, comments, receipts, etc.) assert the
payload identity in `update_from_json`, failing loudly on a mismatch and
leaving `(id, type)` invariant on success; but `PikComfortPremise`,
`PikComfortBuilding` and the root `InfoResult` perform no such check and
silently adopt the payload's identity, so the claim's universal statement
over every identifiable record is false.  This theorem proves the account
half of the amended claim. -/
theorem claim_C2_account_identity_guard (a : PikComfortAccount)
    (j : AccountPayload) :
    (¬(a.id = j._uid ∧ a.type = j._type) →
      ∃ msg, a.update_from_json j = .error (.assertionError msg)) ∧
    (∀ a2, a.update_from_json j = .ok a2 → a2.id = a.id ∧ a2.type = a.type) := by
  constructor
  · intro h
    unfold PikComfortAccount.update_from_json
    by_cases h1 : a.id = j._uid
    · have h2 : ¬(a.type = j._type) := fun h2 => h ⟨h1, h2⟩
      refine ⟨"type does not match", ?_⟩
      simp [pyAssert, h1, h2, Bind.bind, Except.bind]
    · refine ⟨"UID does not match", ?_⟩
      simp [pyAssert, h1, Bind.bind, Except.bind]
  · intro a2 h
    unfold PikComfortAccount.update_from_json at h
    rw [exceptBind_ok] at h
    obtain ⟨u1, hu1, h⟩ := h
    rw [exceptBind_ok] at h
    obtain ⟨u2, hu2, h⟩ := h
    rw [exceptBind_ok] at h
    obtain ⟨af, haf, h⟩ := h
    rw [exceptBind_ok] at h
    obtain ⟨bld, hbld, h⟩ := h
    rw [exceptBind_ok] at h
    obtain ⟨prem, hprem, h⟩ := h
    rw [exceptBind_ok] at h
    obtain ⟨tks, htks, h⟩ := h
    rw [exceptBind_ok] at h
    obtain ⟨rcs, hrcs, h⟩ := h
    cases h
    exact ⟨rfl, rfl⟩

/-- Witness for claim C2's amended theorem: a concrete mismatching payload
makes the account update raise the assertion, and a concrete matching
update returns successfully with the identity unchanged. -/
theorem claim_C2_account_identity_guard_witness :
    (∃ msg, sampleAccount.update_from_json sampleAccountPayloadB =
      .error (.assertionError msg)) ∧
    (sampleAccount.id = sampleAccount.id ∧
      sampleAccount.type = sampleAccount.type) := by
  constructor
  · exact (claim_C2_account_identity_guard sampleAccount
      sampleAccountPayloadB).1 (by decide)
  · exact (claim_C2_account_identity_guard sampleAccount
      sampleAccountPayload).2 sampleAccount (by decide)

/-- Counterexample for claim C2 as stated: `PikComfortPremise.update_from_json`
(api.py lines 811-825, one of the claim's own cited sources) accepts a
payload whose `_uid` differs from the record's id without raising and
silently rewrites the record's identity. -/
theorem claim_C2_counterexample_premise :
    ∃ p2, samplePremise.update_from_json samplePremisePayloadB = .ok p2 ∧
      samplePremise.id = "a" ∧ p2.id = "b" := by
  refine ⟨PikComfortPremise.create_from_json samplePremisePayloadB,
    by decide, by decide, by decide⟩

/-- Claim C4 (corrected).  As amended: the empty-string / null → absent
normalisation holds at construction (`number=json_data.get("number") or
None`, api.py line 673, and the classifier's `hint` on both paths, lines
1805 and 1825), but `PikComfortAccount.update_from_json` assigns
`self.number = json_data["number"]` verbatim (line 733), so after an
update with an empty-string `number` the field holds the empty string,
not `None`. -/
theorem claim_C4_normalization_create_only :
    (∀ j : AccountPayload, (j.number = none ∨ j.number = some "") →
      (PikComfortAccount.create_from_json j).number = none) ∧
    (∀ (a : PikComfortAccount) (j : AccountPayload) (a2 : PikComfortAccount),
      a.update_from_json j = .ok a2 → a2.number = j.number) ∧
    (∀ j : ClassifierPayload, (j.hint = none ∨ j.hint = some "") →
      (TicketClassifier.create_from_json j).hint = none) ∧
    (∀ (c : TicketClassifier) (j : ClassifierPayload) (c2 : TicketClassifier),
      c.update_from_json j = .ok c2 → (j.hint = none ∨ j.hint = some "") →
      c2.hint = none) := by
  refine ⟨?_, ?_, ?_, ?_⟩
  · intro j hj
    unfold PikComfortAccount.create_from_json
    rcases hj with h | h <;> simp [pyStrOrNone, h]
  · intro a j a2 h
    unfold PikComfortAccount.update_from_json at h
    rw [exceptBind_ok] at h
    obtain ⟨u1, hu1, h⟩ := h
    rw [exceptBind_ok] at h
    obtain ⟨u2, hu2, h⟩ := h
    rw [exceptBind_ok] at h
    obtain ⟨af, haf, h⟩ := h
    rw [exceptBind_ok] at h
    obtain ⟨bld, hbld, h⟩ := h
    rw [exceptBind_ok] at h
    obtain ⟨prem, hprem, h⟩ := h
    rw [exceptBind_ok] at h
    obtain ⟨tks, htks, h⟩ := h
    rw [exceptBind_ok] at h
    obtain ⟨rcs, hrcs, h⟩ := h
    cases h
    rfl
  · intro j hj
    unfold TicketClassifier.create_from_json
    rcases hj with h | h <;> simp [pyStrOrNone, h]
  · intro c j c2 h hj
    unfold TicketClassifier.update_from_json at h
    rw [exceptBind_ok] at h
    obtain ⟨u1, hu1, h⟩ := h
    rw [exceptBind_ok] at h
    obtain ⟨u2, hu2, h⟩ := h
    cases h
    rcases hj with h | h <;> simp [pyStrOrNone, h]

/-- Witness for claim C4's amended theorem at concrete inputs: a null
`number` is normalised at construction, and an update stores the payload's
`number` verbatim. -/
theorem claim_C4_normalization_create_only_witness :
    (PikComfortAccount.create_from_json
      { sampleAccountPayload with number := some "" }).number = none ∧
    ∀ a2, sampleAccount.update_from_json sampleAccountPayloadEmptyNumber =
      .ok a2 → a2.number = sampleAccountPayloadEmptyNumber.number := by
  constructor
  · exact (claim_C4_normalization_create_only).1
      { sampleAccountPayload with number := some "" } (Or.inr rfl)
  · intro a2 h
    exact (claim_C4_normalization_create_only).2.1 sampleAccount
      sampleAccountPayloadEmptyNumber a2 h

/-- Counterexample for claim C4 as stated: updating an account with a
payload whose `number` is the empty string leaves `number = some ""`, not
`none` — the update path performs no normalisation. -/
theorem claim_C4_counterexample_update_keeps_empty :
    ∃ a2, sampleAccount.update_from_json sampleAccountPayloadEmptyNumber =
        .ok a2 ∧ a2.number = some "" ∧ a2.number ≠ none := by
  refine ⟨{ sampleAccount with number := some "" }, by decide, by decide, by decide⟩

/-- The run of a coalescing schedule up to the fetch completion: after the
leader's arrival, `a` taps during the sleep, the wake (issuing the single
fetch) and `b` taps during the fetch, the system is one `fetchReturn` step
away from the final state. -/
theorem coalescingTrace_run (a b : Nat) (o : Outcome) :
    delRun o (coalescingTrace a b) =
      delStep o
        { marker := true, phase := .fetching, counter := 1, fetchCount := 1,
          waiters := a + b, leaderResult := none, waiterResults := [] }
        .fetchReturn := by
  unfold delRun coalescingTrace
  rw [show ([DelEvent.arrive] ++ List.replicate a .arrive ++ [DelEvent.wake] ++
      List.replicate b .arrive ++ [DelEvent.fetchReturn]) =
      DelEvent.arrive :: (List.replicate a .arrive ++ ([DelEvent.wake] ++
      (List.replicate b .arrive ++ [DelEvent.fetchReturn]))) by simp]
  rw [List.foldl_cons]
  have h1 : delStep o delInit .arrive =
      { marker := true, phase := .sleeping, counter := 1, fetchCount := 0,
        waiters := 0, leaderResult := none, waiterResults := [] } := by
    simp [delStep, delInit]
  rw [h1, List.foldl_append]
  rw [foldl_arrive_marker o a _ (by rfl)]
  rw [List.foldl_append]
  have h2 : List.foldl (delStep o)
      { marker := true, phase := .sleeping, counter := 1, fetchCount := 0,
        waiters := 0 + a, leaderResult := none,
        waiterResults := ([] : List Outcome) } [DelEvent.wake] =
      { marker := true, phase := .fetching, counter := 1, fetchCount := 1,
        waiters := a, leaderResult := none, waiterResults := [] } := by
    simp [delStep]
  rw [h2, List.foldl_append]
  rw [foldl_arrive_marker o b _ (by rfl)]
  simp

/-- Claim C5 (code bug).  The claim states that N refresh requests
arriving while the coordinator is Refreshing share one physical fetch and
that **every** caller receives the shared future's outcome, with the
in-flight marker cleared on every exit path.  What the code guarantees is
weaker: one fetch, marker cleanup and the leader's outcome hold for every
fetch outcome, and the coalesced waiters receive the shared outcome when
the fetch succeeds or fails with a `PikComfortException` — but the
`except` clause at `_base.py` line 196 catches only `PikComfortException`,
so a fetch failing with any other exception resolves nothing: the waiters
stay awaiting the never-resolved future forever.  Such a failure is
reachable on well-typed payloads: the final conjunct shows the receipt
list whose contents were turned raw by the second refresh (api.py line
1165, cf. claim C1) makes the third reconcile — inside
`async_update_info` — raise `AttributeError`, which is not a
`PikComfortException`. -/
theorem claim_C5_delegator_outcome_delivery (a b : Nat) (o : Outcome) :
    ((delRun o (coalescingTrace a b)).fetchCount = 1 ∧
     (delRun o (coalescingTrace a b)).counter = 1 ∧
     (delRun o (coalescingTrace a b)).marker = false ∧
     (delRun o (coalescingTrace a b)).leaderResult = some o) ∧
    ((o = .success ∨ ∃ msg, o = .failure (.pikComfortException msg)) →
      (delRun o (coalescingTrace a b)).waiterResults =
        List.replicate (a + b) o ∧
      (delRun o (coalescingTrace a b)).waiters = 0) ∧
    ((delRun (.failure .attributeError) (coalescingTrace a b)).waiterResults
        = [] ∧
     (delRun (.failure .attributeError) (coalescingTrace a b)).waiters
        = a + b) ∧
    (PikComfortReceipt.update_list_with_models
        [{ PikComfortReceipt.create_from_json sampleReceiptPayload with
           contents := sampleReceiptPayload.main.map ContentsEntry.raw }]
        [sampleReceiptPayload] = .error .attributeError) := by
  refine ⟨?_, ?_, ?_, by decide⟩
  · rw [coalescingTrace_run]
    cases o with
    | success => exact ⟨rfl, rfl, rfl, rfl⟩
    | failure e =>
      by_cases he : e.isPikComfortException = true
      · simp [delStep, he]
      · simp [delStep, he]
  · intro ho
    rw [coalescingTrace_run]
    rcases ho with h | ⟨msg, h⟩
    · subst h
      exact ⟨rfl, rfl⟩
    · subst h
      simp [delStep, PyErr.isPikComfortException]
  · rw [coalescingTrace_run]
    exact ⟨rfl, rfl⟩

/-- Witness for claim C5's theorem: one waiter during the sleep receives
the success result, and three waiters receive a propagated
`PikComfortException` failure. -/
theorem claim_C5_delegator_outcome_delivery_witness :
    (delRun .success (coalescingTrace 1 0)).waiterResults =
      List.replicate 1 Outcome.success ∧
    (delRun (.failure (.pikComfortException "Timeout error"))
        (coalescingTrace 2 1)).waiterResults =
      List.replicate 3
        (Outcome.failure (.pikComfortException "Timeout error")) := by
  constructor
  · exact ((claim_C5_delegator_outcome_delivery 1 0 .success).2.1
      (Or.inl rfl)).1
  · exact ((claim_C5_delegator_outcome_delivery 2 1
      (.failure (.pikComfortException "Timeout error"))).2.1
      (Or.inr ⟨"Timeout error", rfl⟩)).1

/-- Claim C6 (confirmed).  The upward path traversal terminates for every
classifier set and start node: with the sufficient iteration budget
`cs.length + 2` it always produces a result (the ancestor path or the
structural-integrity error raised as soon as a node already on the
accumulated path is revisited); in particular the crafted three-node cycle
A → B → C → A raises the loop error instead of hanging. -/
theorem claim_C6_path_traversal_terminates :
    (∀ (cs : List TicketClassifier) (c : TicketClassifier),
      (TicketClassifier.path_from cs c).isSome) ∧
    TicketClassifier.path_from [cycleA, cycleB, cycleC] cycleA =
      some (.error (.pikComfortException "Path loop detected")) := by
  constructor
  · intro cs c
    unfold TicketClassifier.path_from
    apply pathFromAux_isSome cs (c :: cs)
    · intro x hx; exact List.mem_cons_of_mem _ hx
    · exact List.nodup_nil
    · intro x hx; exact absurd hx (List.not_mem_nil x)
    · exact List.mem_cons_self c cs
    · simp
  · decide

/-- Claim C7 (confirmed).  With the classifier check enabled, ticket
creation against a cached classifier set fails with the descriptive
`Classifier was not found` error when the id is absent, fails with
`Classifier contains children` when the classifier has at least one child,
and only reaches the point of issuing the request (the returned request
body) for a cached childless classifier — the errors occur before any
network interaction by construction of the model. -/
theorem claim_C7_leaf_only_ticket_creation (info : Option InfoResult)
    (cs : List TicketClassifier) (cid desc aid : String) :
    (cs.find? (fun c => c.id = cid) = none →
      asyncCreateTicketCheck info (some cs) cid desc (some aid) false true =
        .error (.pikComfortException "Classifier was not found")) ∧
    (∀ fc, cs.find? (fun c => c.id = cid) = some fc →
      TicketClassifier.childrenIn cs fc ≠ [] →
      asyncCreateTicketCheck info (some cs) cid desc (some aid) false true =
        .error (.pikComfortException "Classifier contains children")) ∧
    (∀ fc, cs.find? (fun c => c.id = cid) = some fc →
      TicketClassifier.childrenIn cs fc = [] →
      asyncCreateTicketCheck info (some cs) cid desc (some aid) false true =
        .ok { classifier_id := cid, description := desc,
              account_id := some aid }) := by
  have hacc : resolveAccountId info (some aid) false = .ok (some aid) := by
    simp [resolveAccountId]
  refine ⟨?_, ?_, ?_⟩
  · intro hfind
    simp [asyncCreateTicketCheck, hacc, Bind.bind, Except.bind, hfind]
  · intro fc hfind hch
    simp [asyncCreateTicketCheck, hacc, Bind.bind, Except.bind, hfind, hch]
  · intro fc hfind hch
    simp [asyncCreateTicketCheck, hacc, Bind.bind, Except.bind, hfind, hch]

/-- Witness for claim C7 on a concrete two-node classifier forest: an
unknown id is rejected, the root (which has a child) is rejected, and the
leaf is accepted. -/
theorem claim_C7_leaf_only_ticket_creation_witness :
    (asyncCreateTicketCheck none (some sampleClassifiers) "X" "d" (some "acc")
        false true = .error (.pikComfortException "Classifier was not found")) ∧
    (asyncCreateTicketCheck none (some sampleClassifiers) "R" "d" (some "acc")
        false true = .error (.pikComfortException "Classifier contains children")) ∧
    (asyncCreateTicketCheck none (some sampleClassifiers) "L" "d" (some "acc")
        false true = .ok { classifier_id := "L", description := "d",
                           account_id := some "acc" }) := by
  refine ⟨?_, ?_, ?_⟩
  · exact (claim_C7_leaf_only_ticket_creation none sampleClassifiers
      "X" "d" "acc").1 (by decide)
  · exact (claim_C7_leaf_only_ticket_creation none sampleClassifiers
      "R" "d" "acc").2.1 classifierRoot (by decide) (by decide)
  · exact (claim_C7_leaf_only_ticket_creation none sampleClassifiers
      "L" "d" "acc").2.2 classifierLeaf (by decide) (by decide)

/-- Claim C8 (confirmed).  `last_payment` / `last_receipt` return `none` on
an empty collection; on a non-empty one they return the element with the
greatest timestamp (resp. period), and among elements tied for the greatest
key the one appearing earliest in the source list. -/
theorem claim_C8_last_payment_receipt (a : PikComfortAccount) :
    (a.payments = [] → a.last_payment = none) ∧
    (a.receipts = [] → a.last_receipt = none) ∧
    (a.payments ≠ [] → ∃ i, ∃ h : i < a.payments.length,
      a.last_payment = some (a.payments.get ⟨i, h⟩) ∧
      ∀ j, ∀ hj : j < a.payments.length,
        (a.payments.get ⟨j, hj⟩).timestamp ≤ (a.payments.get ⟨i, h⟩).timestamp ∧
        ((a.payments.get ⟨j, hj⟩).timestamp = (a.payments.get ⟨i, h⟩).timestamp →
          i ≤ j)) ∧
    (a.receipts ≠ [] → ∃ i, ∃ h : i < a.receipts.length,
      a.last_receipt = some (a.receipts.get ⟨i, h⟩) ∧
      ∀ j, ∀ hj : j < a.receipts.length,
        (a.receipts.get ⟨j, hj⟩).period ≤ (a.receipts.get ⟨i, h⟩).period ∧
        ((a.receipts.get ⟨j, hj⟩).period = (a.receipts.get ⟨i, h⟩).period →
          i ≤ j)) := by
  refine ⟨?_, ?_, ?_, ?_⟩
  · intro h
    simp [PikComfortAccount.last_payment, pyLastByKey, h]
  · intro h
    simp [PikComfortAccount.last_receipt, pyLastByKey, h]
  · intro h
    exact pyLastByKey_spec (fun p => p.timestamp) a.payments h
  · intro h
    exact pyLastByKey_spec (fun r => r.period) a.receipts h

/-- Witness for claim C8: the empty-history account yields `none` for both
views, and the two-payment account yields some element of its payment list. -/
theorem claim_C8_last_payment_receipt_witness :
    sampleAccount.last_payment = none ∧
    sampleAccount.last_receipt = none ∧
    (∃ i, ∃ h : i < sampleAccountWithHistory.payments.length,
      sampleAccountWithHistory.last_payment =
        some (sampleAccountWithHistory.payments.get ⟨i, h⟩)) := by
  refine ⟨?_, ?_, ?_⟩
  · exact (claim_C8_last_payment_receipt sampleAccount).1 (by decide)
  · exact (claim_C8_last_payment_receipt sampleAccount).2.1 (by decide)
  · obtain ⟨i, h, he, _⟩ :=
      (claim_C8_last_payment_receipt sampleAccountWithHistory).2.2.1 (by decide)
    exact ⟨i, h, he⟩

/-- Claim C9 (confirmed).  For a meter whose zone-1 tariff has value 100
(and no user reading), submitting an incremental reading of 50 for zone 1
produces the submitted value 150, while submitting an absolute reading of
50 produces exactly 50; in both cases the request entry carries the value
produced by `get_submit_call_args` unchanged. -/
theorem claim_C9_incremental_vs_absolute :
    (getSubmitCallArgs [sampleTariff] [("t1", 50)] true = .ok [(1, 150)]) ∧
    (asyncSubmitReadingsRequest (some "token") sampleMeter [(1, 150)] =
      .ok [{ value := 150, tariff_type := 1, meter := "m1",
             meter_reading_uid := "m11" }]) ∧
    (getSubmitCallArgs [sampleTariff] [("t1", 50)] false = .ok [(1, 50)]) ∧
    (asyncSubmitReadingsRequest (some "token") sampleMeter [(1, 50)] =
      .ok [{ value := 50, tariff_type := 1, meter := "m1",
             meter_reading_uid := "m11" }]) := by
  refine ⟨?_, ?_, ?_, ?_⟩
  · simp [getSubmitCallArgs, getSubmitCallArgsLoop, pyIntOfDigits, digitsToNat,
      digitVal, sampleTariff, pyMax, pyFloatOr0, dictInsert]
    norm_num
  · simp [asyncSubmitReadingsRequest, buildReadingsRequest, sampleMeter,
      sampleTariff, Bind.bind, Except.bind]
    decide
  · simp [getSubmitCallArgs, getSubmitCallArgsLoop, pyIntOfDigits, digitsToNat,
      digitVal, sampleTariff, pyMax, pyFloatOr0, dictInsert]
  · simp [asyncSubmitReadingsRequest, buildReadingsRequest, sampleMeter,
      sampleTariff, Bind.bind, Except.bind]
    decide

/-- Claim C10 (confirmed).  `PikComfortPayment.status` and the meter's
`resource_type` are total: any `status_id` / `resource_type_id` outside the
declared enum members maps to the UNKNOWN member through `_missing_`;
`PikComfortTicket.status` is partial: any `status_id` outside
{0, 200, 201, 202, 203} raises `ValueError` instead of returning a
fallback, while members yield a status. -/
theorem claim_C10_status_totality (p : PikComfortPayment)
    (m : PikComfortMeter) (t : PikComfortTicket) :
    (p.status_id ∉ ([0, 1, 2, 3] : List Int) →
      p.status = PaymentStatus.UNKNOWN) ∧
    (m.resource_type_id ∉ ([0, 1, 2, 3, 4, 5, 6, 7, 8] : List Int) →
      m.resource_type = MeterResourceType.UNKNOWN) ∧
    (t.status_id ∉ ([0, 200, 201, 202, 203] : List Int) →
      t.status = .error (.valueError "is not a valid TicketStatus")) ∧
    (t.status_id ∈ ([0, 200, 201, 202, 203] : List Int) →
      ∃ s, t.status = .ok s) := by
  refine ⟨?_, ?_, ?_, ?_⟩
  · intro hn
    simp only [List.mem_cons, List.not_mem_nil, or_false, not_or] at hn
    obtain ⟨h0, h1, h2, h3⟩ := hn
    unfold PikComfortPayment.status paymentStatusOf
    have : PaymentStatus.members.find? (fun s => s.value = p.status_id) = none := by
      simp [PaymentStatus.members, List.find?, PaymentStatus.value,
        Ne.symm h0, Ne.symm h1, Ne.symm h2, Ne.symm h3]
    rw [this]
  · intro hn
    simp only [List.mem_cons, List.not_mem_nil, or_false, not_or] at hn
    obtain ⟨h0, h1, h2, h3, h4, h5, h6, h7, h8⟩ := hn
    unfold PikComfortMeter.resource_type meterResourceTypeOf
    have : MeterResourceType.members.find?
        (fun s => s.value = m.resource_type_id) = none := by
      simp [MeterResourceType.members, List.find?, MeterResourceType.value,
        Ne.symm h0, Ne.symm h1, Ne.symm h2, Ne.symm h3, Ne.symm h4,
        Ne.symm h5, Ne.symm h6, Ne.symm h7, Ne.symm h8]
    rw [this]
  · intro hn
    simp only [List.mem_cons, List.not_mem_nil, or_false, not_or] at hn
    obtain ⟨h0, h1, h2, h3, h4⟩ := hn
    unfold PikComfortTicket.status ticketStatusOf
    have : TicketStatus.members.find? (fun s => s.value = t.status_id) = none := by
      simp [TicketStatus.members, List.find?, TicketStatus.value,
        Ne.symm h0, Ne.symm h1, Ne.symm h2, Ne.symm h3, Ne.symm h4]
    rw [this]
  · intro hn
    simp only [List.mem_cons, List.not_mem_nil, or_false] at hn
    unfold PikComfortTicket.status ticketStatusOf
    rcases hn with h | h | h | h | h
    · exact ⟨.UNKNOWN, by
        simp [TicketStatus.members, List.find?, TicketStatus.value, h]⟩
    · exact ⟨.RECEIVED, by
        simp [TicketStatus.members, List.find?, TicketStatus.value, h]⟩
    · exact ⟨.PROCESSING, by
        simp [TicketStatus.members, List.find?, TicketStatus.value, h]⟩
    · exact ⟨.COMPLETED, by
        simp [TicketStatus.members, List.find?, TicketStatus.value, h]⟩
    · exact ⟨.DENIED, by
        simp [TicketStatus.members, List.find?, TicketStatus.value, h]⟩

/-- Witness for claim C10 at concrete records with out-of-range ids 7 / 42
/ 99 and the in-range ticket status 200. -/
theorem claim_C10_status_totality_witness :
    ({ samplePayment "p1" 5 with status_id := 7 }.status =
      PaymentStatus.UNKNOWN) ∧
    ({ sampleMeter with resource_type_id := 42 }.resource_type =
      MeterResourceType.UNKNOWN) ∧
    ((sampleTicket 99).status = .error (.valueError "is not a valid TicketStatus")) ∧
    (∃ s, (sampleTicket 200).status = .ok s) := by
  refine ⟨?_, ?_, ?_, ?_⟩
  · exact (claim_C10_status_totality { samplePayment "p1" 5 with status_id := 7 }
      sampleMeter (sampleTicket 0)).1 (by decide)
  · exact (claim_C10_status_totality (samplePayment "p1" 5)
      { sampleMeter with resource_type_id := 42 } (sampleTicket 0)).2.1 (by decide)
  · exact (claim_C10_status_totality (samplePayment "p1" 5) sampleMeter
      (sampleTicket 99)).2.2.1 (by decide)
  · exact (claim_C10_status_totality (samplePayment "p1" 5) sampleMeter
      (sampleTicket 200)).2.2.2 (by decide)
